import Mathlib

/-
Verification development for the open-typeless streaming ASR core.

Shallow embedding of:
  src/main/services/asr/lib/volcengine-client.ts  (class VolcengineClient)
  src/main/services/asr/types.ts                  (zod schemas, constants)
  src/main/services/asr/asr.service.ts            (class ASRService)

Modelling conventions:
  - JavaScript single-threaded event-loop execution is modelled by pure
    state-transition functions.  Each operation returns the new state
    together with the ordered list of externally observable actions it
    performed (events emitted to listeners, frames sent on the wire,
    reconnect timers armed).
  - generateUUID's randomness is modelled by a fresh-name supply
    (a counter in the state); no claim depends on the distribution of
    the generated tokens, only on per-call freshness.
  - setTimeout-driven behaviour (connection timeout, reconnect timer,
    the 10s final-result ceiling and the 500ms grace window) is modelled
    by explicit timer bookkeeping: timers are data, and a step function
    fires every timer whose deadline has passed, in deadline order with
    ties broken by arming order, exactly as the event loop would.
  - WebSocket connection attempts are modelled by an explicit outcome
    parameter enumerating what the transport did (constructor throw,
    open, error before open, close before open, 30s timeout), since the
    network is outside the program.
  - JSON numbers are modelled as integers; the status codes the code
    compares against (0 and 20000000) are integral, and no claim
    depends on fractional values.
-/

namespace OpenTypeless

/-- Connection state of the WebSocket client (types.ts `ConnectionState`). -/
inductive ConnectionState
  | disconnected
  | connecting
  | connected
  | reconnecting
  | error
deriving DecidableEq

/-- Application-level ASR status (shared/types `ASRStatus`). -/
inductive ASRStatus
  | idle
  | connecting
  | listening
  | processing
  | done
  | error
deriving DecidableEq

/-- Result kind carried in the `type` field of an ASRResult. -/
inductive ResultType
  | interim
  | final
deriving DecidableEq

/-- Recognition result (shared/types `ASRResult`): the source field `type`
is rendered `rtype` because `type` is a Lean keyword. -/
structure ASRResult where
  rtype : ResultType
  text : String
  isFinal : Bool
deriving DecidableEq

/-- Modelled `ws.readyState` values while a handle exists; once the client
nulls the handle the state simply holds no `WsReadyState`. -/
inductive WsReadyState
  | connectingRS
  | openRS
deriving DecidableEq

/-- Client credentials (types.ts `VolcengineClientConfig`). -/
structure VolcengineClientConfig where
  appId : String
  accessToken : String
  resourceId : String
deriving DecidableEq

/-- VOLCENGINE_CONSTANTS.RECONNECT.MAX_ATTEMPTS. -/
def RECONNECT_MAX_ATTEMPTS : Nat := 5

/-- VOLCENGINE_CONSTANTS.RECONNECT.BASE_DELAY_MS. -/
def RECONNECT_BASE_DELAY_MS : Nat := 1000

/-- VOLCENGINE_CONSTANTS.RECONNECT.MAX_DELAY_MS. -/
def RECONNECT_MAX_DELAY_MS : Nat := 30000

/-- VOLCENGINE_CONSTANTS.NAMESPACE. -/
def PROTOCOL_NAMESPACE : String := "SpeechTranscriber"

/-- VOLCENGINE_CONSTANTS.MESSAGE_NAMES.START. -/
def MSG_START : String := "StartTranscription"

/-- VOLCENGINE_CONSTANTS.MESSAGE_NAMES.AUDIO_DATA. -/
def MSG_AUDIO_DATA : String := "AudioData"

/-- VOLCENGINE_CONSTANTS.MESSAGE_NAMES.STOP. -/
def MSG_STOP : String := "StopTranscription"

/-- VOLCENGINE_CONSTANTS.MESSAGE_NAMES.TRANSCRIPTION_RESULT_CHANGED. -/
def MSG_RESULT_CHANGED : String := "TranscriptionResultChanged"

/-- VOLCENGINE_CONSTANTS.MESSAGE_NAMES.TRANSCRIPTION_COMPLETED. -/
def MSG_COMPLETED : String := "TranscriptionCompleted"

/-- VOLCENGINE_CONSTANTS.MESSAGE_NAMES.TASK_FAILED. -/
def MSG_TASK_FAILED : String := "TaskFailed"

/-- Mutable fields of a VolcengineClient instance.  `reconnectScheduled`
models `reconnectTimeoutId !== null`; `uuidCounter` is the fresh-name
supply standing in for `generateUUID`'s randomness. -/
structure ClientState where
  config : VolcengineClientConfig
  ws : Option WsReadyState
  connectionState : ConnectionState
  taskId : String
  connectId : String
  audioIndex : Nat
  reconnectAttempts : Nat
  reconnectScheduled : Bool
  sessionStarted : Bool
  uuidCounter : Nat
deriving DecidableEq

/-- Deterministic stand-in for `generateUUID()`. -/
def mkUUID (n : Nat) : String := "uuid-" ++ toString n

/-- Header of an outgoing protocol frame (buildMessage).  The source field
`namespace` is rendered `nspace` because `namespace` is a Lean keyword. -/
structure OutHeader where
  message_id : String
  task_id : String
  nspace : String
  name : String
deriving DecidableEq

/-- Payloads the client ever sends: the fixed StartTranscription body
(audio format pcm/16kHz/1ch/16bit, model bigmodel), AudioData with
base64 audio plus sequence index and end flag, and the empty
StopTranscription body. -/
inductive OutPayload
  | startTranscription
  | audioData (audio : String) (index : Nat) (is_end : Bool)
  | stopTranscription
deriving DecidableEq

/-- An outgoing protocol frame. -/
structure OutMessage where
  header : OutHeader
  payload : OutPayload
deriving DecidableEq

/-- Externally observable actions of the client, in program order:
events emitted to listeners (`result`, `status`, `error`), frames
handed to `ws.send`, and reconnect timers armed by `scheduleReconnect`. -/
inductive Act
  | evResult (r : ASRResult)
  | evStatus (s : ASRStatus)
  | evError (msg : String)
  | send (m : OutMessage)
  | schedule (delayMs : Nat)
deriving DecidableEq

/-- Base64 alphabet used by Buffer.toString('base64'). -/
def base64Table : List Char :=
  "ABCDEFGHIJKLMNOPQRSTUVWXYZabcdefghijklmnopqrstuvwxyz0123456789+/".toList

/-- Character of the base64 alphabet at a 6-bit index. -/
def b64Char (n : Nat) : Char := base64Table.getD n 'A'

/-- Base64-encode a byte list, three bytes to four characters with
trailing '=' padding. -/
def arrayBufferToBase64Aux : List Nat → List Char
  | [] => []
  | [a] =>
    let a := a % 256
    [b64Char (a / 4), b64Char (a % 4 * 16), '=', '=']
  | [a, b] =>
    let a := a % 256
    let b := b % 256
    [b64Char (a / 4), b64Char (a % 4 * 16 + b / 16), b64Char (b % 16 * 4), '=']
  | a :: b :: c :: rest =>
    let a := a % 256
    let b := b % 256
    let c := c % 256
    b64Char (a / 4) :: b64Char (a % 4 * 16 + b / 16) ::
      b64Char (b % 16 * 4 + c / 64) :: b64Char (c % 64) :: arrayBufferToBase64Aux rest

namespace VolcengineClient

/-- VolcengineClient.arrayBufferToBase64: audio chunks are byte lists. -/
def arrayBufferToBase64 (buffer : List Nat) : String :=
  String.mk (arrayBufferToBase64Aux buffer)

/-- VolcengineClient.isConnected getter. -/
def isConnected (s : ClientState) : Bool :=
  s.connectionState == ConnectionState.connected && s.ws == some WsReadyState.openRS

/-- VolcengineClient.reset: state for a new connection.  Note it does not
touch `reconnectAttempts`. -/
def reset (s : ClientState) : ClientState :=
  { s with audioIndex := 0, sessionStarted := false, taskId := "", connectId := "" }

/-- VolcengineClient.cleanup: remove listeners, close and null the socket
handle.  Dropping the handle also models `removeAllListeners`: no
further transport callbacks are delivered for it. -/
def cleanup (s : ClientState) : ClientState :=
  { s with ws := none, sessionStarted := false }

/-- VolcengineClient.buildMessage: fresh message id, session task id,
fixed namespace. -/
def buildMessage (s : ClientState) (name : String) (payload : OutPayload) :
    ClientState × OutMessage :=
  ({ s with uuidCounter := s.uuidCounter + 1 },
   { header :=
       { message_id := mkUUID s.uuidCounter
         task_id := s.taskId
         nspace := PROTOCOL_NAMESPACE
         name := name }
     payload := payload })

/-- VolcengineClient.sendMessage: silently drops the frame when the
socket is not open. -/
def sendMessage (s : ClientState) (m : OutMessage) : List Act :=
  if s.ws == some WsReadyState.openRS then [Act.send m] else []

/-- VolcengineClient.sendAudio: no-op unless connected with a started
session; otherwise sends an AudioData frame carrying the next sequence
index with is_end false, post-incrementing the counter. -/
def sendAudio (s : ClientState) (chunk : List Nat) : ClientState × List Act :=
  if !(isConnected s) || !s.sessionStarted then (s, [])
  else
    let base64Audio := arrayBufferToBase64 chunk
    let (s1, m) := buildMessage s MSG_AUDIO_DATA
      (OutPayload.audioData base64Audio s.audioIndex false)
    let s2 := { s1 with audioIndex := s1.audioIndex + 1 }
    (s2, sendMessage s2 m)

/-- VolcengineClient.finishAudio: no-op unless connected with a started
session; otherwise emits status processing and sends a final empty
AudioData frame with is_end true, consuming the next sequence index. -/
def finishAudio (s : ClientState) : ClientState × List Act :=
  if !(isConnected s) || !s.sessionStarted then (s, [])
  else
    let (s1, m) := buildMessage s MSG_AUDIO_DATA
      (OutPayload.audioData "" s.audioIndex true)
    let s2 := { s1 with audioIndex := s1.audioIndex + 1 }
    (s2, Act.evStatus ASRStatus.processing :: sendMessage s2 m)

/-- VolcengineClient.sendStartTranscription: send the session-start frame,
mark the session started, emit status listening. -/
def sendStartTranscription (s : ClientState) : ClientState × List Act :=
  let (s1, m) := buildMessage s MSG_START OutPayload.startTranscription
  let acts := sendMessage s1 m
  ({ s1 with sessionStarted := true }, acts ++ [Act.evStatus ASRStatus.listening])

/-- VolcengineClient.sendStopTranscription: send the empty session-stop
frame. -/
def sendStopTranscription (s : ClientState) : ClientState × List Act :=
  let (s1, m) := buildMessage s MSG_STOP OutPayload.stopTranscription
  (s1, sendMessage s1 m)

end VolcengineClient

/-- Run a list of sendAudio calls in order, accumulating the emitted
actions. -/
def runSends : ClientState → List (List Nat) → ClientState × List Act
  | s, [] => (s, [])
  | s, c :: rest =>
    let (s1, a1) := VolcengineClient.sendAudio s c
    let (s2, a2) := runSends s1 rest
    (s2, a1 ++ a2)

/-- Project, from an action trace, the (sequence index, end flag) pairs of
the AudioData frames that were actually sent, in order. -/
def audioFrames (acts : List Act) : List (Nat × Bool) :=
  acts.filterMap fun a =>
    match a with
    | Act.send m =>
      match m.payload with
      | OutPayload.audioData _ i e => some (i, e)
      | _ => none
    | _ => none

/-- An active session: the client is connected with an open socket and the
session-start frame has been sent. -/
def ActiveSession (s : ClientState) : Prop :=
  VolcengineClient.isConnected s = true ∧ s.sessionStarted = true

instance : DecidablePred ActiveSession := fun s => by
  unfold ActiveSession
  infer_instance

/-- JSON values, as produced by JSON.parse.  Numbers are modelled as
integers (see the header note). -/
inductive Json
  | null
  | bool (b : Bool)
  | num (n : Int)
  | str (s : String)
  | arr (elems : List Json)
  | obj (fields : List (String × Json))

/-- Field lookup on a JSON object; none on non-objects or missing keys. -/
def Json.getField : Json → String → Option Json
  | Json.obj fields, k => fields.lookup k
  | _, _ => none

/-- True exactly on JSON objects (what z.object / z.record accept). -/
def Json.isObj : Json → Bool
  | Json.obj _ => true
  | _ => false

/-- z.string(): accept exactly JSON strings. -/
def parseStr : Json → Option String
  | Json.str s => some s
  | _ => none

/-- z.number(): accept exactly JSON numbers. -/
def parseNum : Json → Option Int
  | Json.num n => some n
  | _ => none

/-- z.boolean(): accept exactly JSON booleans. -/
def parseBool : Json → Option Bool
  | Json.bool b => some b
  | _ => none

/-- An `.optional()` field: absent is fine, present must parse. -/
def parseOptField (j : Json) (k : String) (p : Json → Option α) :
    Option (Option α) :=
  match j.getField k with
  | none => some none
  | some v => (p v).map some

/-- z.array(s): accept a JSON array whose every element parses. -/
def parseArr (p : Json → Option α) : Json → Option (List α)
  | Json.arr xs => xs.mapM p
  | _ => none

/-- Parsed message header (types.ts `volcengineHeaderSchema`). -/
structure VolcHeader where
  message_id : String
  task_id : String
  nspace : String
  name : String
  status : Option Int
  status_message : Option String

/-- Parsed incoming message (types.ts `volcengineMessageSchema`); the
payload stays raw JSON, as z.record(z.string(), z.unknown()) keeps it. -/
structure VolcInMessage where
  header : VolcHeader
  payload : Json

/-- volcengineHeaderSchema.safeParse: requires the four string header
fields; status / status_message optional but type-checked when present. -/
def volcengineHeaderSchema (j : Json) : Option VolcHeader :=
  if !j.isObj then none
  else do
    let mid ← (j.getField "message_id").bind parseStr
    let tid ← (j.getField "task_id").bind parseStr
    let ns ← (j.getField "namespace").bind parseStr
    let nm ← (j.getField "name").bind parseStr
    let st ← parseOptField j "status" parseNum
    let sm ← parseOptField j "status_message" parseStr
    some ⟨mid, tid, ns, nm, st, sm⟩

/-- volcengineMessageSchema.safeParse: header must validate, payload must
be a JSON object. -/
def volcengineMessageSchema (j : Json) : Option VolcInMessage :=
  if !j.isObj then none
  else do
    let h ← (j.getField "header").bind volcengineHeaderSchema
    let p ← j.getField "payload"
    if p.isObj then some ⟨h, p⟩ else none

/-- Parsed sentence fragment (types.ts `sentenceResultSchema`). -/
structure SentenceResult where
  text : String
  begin_time : Option Int
  end_time : Option Int
  confidence : Option Int

/-- Parsed inner result object of a transcription payload. -/
structure TranscriptionResult where
  text : Option String
  sentences : Option (List SentenceResult)
  is_complete : Option Bool

/-- Parsed transcription payload (types.ts
`transcriptionResultPayloadSchema`). -/
structure TranscriptionResultPayload where
  result : Option TranscriptionResult

/-- sentenceResultSchema.safeParse. -/
def sentenceResultSchema (j : Json) : Option SentenceResult :=
  if !j.isObj then none
  else do
    let t ← (j.getField "text").bind parseStr
    let b ← parseOptField j "begin_time" parseNum
    let e ← parseOptField j "end_time" parseNum
    let c ← parseOptField j "confidence" parseNum
    some ⟨t, b, e, c⟩

/-- The inner `result` object schema. -/
def transcriptionInnerSchema (j : Json) : Option TranscriptionResult :=
  if !j.isObj then none
  else do
    let t ← parseOptField j "text" parseStr
    let ss ← parseOptField j "sentences" (parseArr sentenceResultSchema)
    let ic ← parseOptField j "is_complete" parseBool
    some ⟨t, ss, ic⟩

/-- transcriptionResultPayloadSchema.safeParse. -/
def transcriptionResultPayloadSchema (j : Json) : Option TranscriptionResultPayload :=
  if !j.isObj then none
  else (parseOptField j "result" transcriptionInnerSchema).map fun r => ⟨r⟩

namespace VolcengineClient

/-- VolcengineClient.handleTranscriptionResult: validate the payload, take
the direct text when JS-truthy, else join the sentence texts when a
sentences array is present, and emit a result event only when the final
string is non-empty. -/
def handleTranscriptionResult (s : ClientState) (m : VolcInMessage)
    (isFinal : Bool) : ClientState × List Act :=
  match transcriptionResultPayloadSchema m.payload with
  | none => (s, [])
  | some payload =>
    match payload.result with
    | none => (s, [])
    | some result =>
      let text := result.text.getD ""
      let text :=
        if text == "" && result.sentences.isSome then
          String.join ((result.sentences.getD []).map fun sf => sf.text)
        else text
      if text != "" then
        (s, [Act.evResult
          { rtype := if isFinal then ResultType.final else ResultType.interim
            text := text
            isFinal := isFinal }])
      else (s, [])

/-- The `switch (name)` dispatch at the end of
VolcengineClient.processMessage: recognized names map to result /
done / task-failure handling, unrecognized names are ignored. -/
def dispatchMessage (s : ClientState) (m : VolcInMessage) : ClientState × List Act :=
  if m.header.name == MSG_RESULT_CHANGED then
    handleTranscriptionResult s m false
  else if m.header.name == MSG_COMPLETED then
    let (s1, acts) := handleTranscriptionResult s m true
    (s1, acts ++ [Act.evStatus ASRStatus.done])
  else if m.header.name == MSG_TASK_FAILED then
    (s, [Act.evError (m.header.status_message.getD "Task failed"),
         Act.evStatus ASRStatus.error])
  else (s, [])

/-- VolcengineClient.processMessage: a present status code other than 0 or
20000000 is surfaced as an error event and stops processing; otherwise
the message is dispatched by name. -/
def processMessage (s : ClientState) (m : VolcInMessage) : ClientState × List Act :=
  match m.header.status with
  | some v =>
    if v != 0 && v != 20000000 then
      (s, [Act.evError (m.header.status_message.getD ("Error status: " ++ toString v))])
    else dispatchMessage s m
  | none => dispatchMessage s m

/-- VolcengineClient.handleMessage: `none` models data whose JSON.parse
throws (the catch only logs); schema-invalid frames are dropped with a
warning; valid frames go to processMessage. -/
def handleMessage (s : ClientState) (data : Option Json) : ClientState × List Act :=
  match data with
  | none => (s, [])
  | some raw =>
    match volcengineMessageSchema raw with
    | none => (s, [])
    | some message => processMessage s message

/-- VolcengineClient.scheduleReconnect: at the attempt cap, flip to the
error state and emit the single terminal error; below it, compute the
exponential backoff delay, enter reconnecting, bump the counter and arm
the timer. -/
def scheduleReconnect (s : ClientState) : ClientState × List Act :=
  if s.reconnectAttempts ≥ RECONNECT_MAX_ATTEMPTS then
    ({ s with connectionState := ConnectionState.error },
     [Act.evStatus ASRStatus.error, Act.evError "Max reconnection attempts reached"])
  else
    let delay := min (RECONNECT_BASE_DELAY_MS * 2 ^ s.reconnectAttempts)
      RECONNECT_MAX_DELAY_MS
    ({ s with connectionState := ConnectionState.reconnecting,
              reconnectAttempts := s.reconnectAttempts + 1,
              reconnectScheduled := true },
     [Act.schedule delay])

/-- VolcengineClient.handleDisconnection: clean up the socket, and when
the state is neither disconnected nor error, flip to disconnected, emit
status idle, and schedule a reconnect. -/
def handleDisconnection (s : ClientState) : ClientState × List Act :=
  let s1 := cleanup s
  if s1.connectionState == ConnectionState.disconnected
      || s1.connectionState == ConnectionState.error then
    (s1, [])
  else
    let s2 := { s1 with connectionState := ConnectionState.disconnected }
    let (s3, acts) := scheduleReconnect s2
    (s3, Act.evStatus ASRStatus.idle :: acts)

/-- VolcengineClient.cancelReconnect: clear any pending reconnect timer
and zero the attempt counter. -/
def cancelReconnect (s : ClientState) : ClientState :=
  { s with reconnectScheduled := false, reconnectAttempts := 0 }

/-- VolcengineClient.disconnect: cancel reconnection, send the explicit
session-stop frame when the socket is open and a session was started,
clean up, flip to disconnected and emit status idle. -/
def disconnect (s : ClientState) : ClientState × List Act :=
  let s1 := cancelReconnect s
  let (s2, acts) :=
    if s1.ws == some WsReadyState.openRS && s1.sessionStarted then
      sendStopTranscription s1
    else (s1, [])
  let s3 := cleanup s2
  ({ s3 with connectionState := ConnectionState.disconnected },
   acts ++ [Act.evStatus ASRStatus.idle])

end VolcengineClient

/-- What the transport did for one connection attempt: the WebSocket
constructor threw; the socket opened; an error event fired before open
(followed by a close event when `thenClose`, as the ws library does);
a bare close fired before open; or no open event arrived within the 30s
connection timeout. -/
inductive ConnectOutcome
  | ctorThrow (msg : String)
  | openOk
  | errorBeforeOpen (msg : String) (thenClose : Bool)
  | closeBeforeOpen
  | timeout

/-- Fate of the promise returned by connect(). -/
inductive PromiseResult
  | resolved
  | rejected (msg : String)
  | pending
deriving DecidableEq

/-- Result of one connect() call: final state, observable actions in
order, and the promise's fate. -/
structure ConnectRes where
  st : ClientState
  acts : List Act
  promise : PromiseResult

namespace VolcengineClient

/-- VolcengineClient.connect, with the transport's behaviour supplied as
an explicit outcome.  Already-connected calls warn and resolve.
Otherwise: reset, enter connecting (emitting status connecting),
generate fresh connectId / taskId, then follow the outcome:
constructor throw rejects in the error state; open sends the
session-start frame and resolves; an error before open emits the error
event and rejects while still in the connecting state, so a following
close event runs handleDisconnection; a bare close before open runs
handleDisconnection with the promise never settled; the 30s timeout
cleans up, enters the error state and rejects. -/
def connect (s : ClientState) (oc : ConnectOutcome) : ConnectRes :=
  if isConnected s then { st := s, acts := [], promise := PromiseResult.resolved }
  else
    let s := reset s
    let s := { s with connectionState := ConnectionState.connecting }
    let acts0 := [Act.evStatus ASRStatus.connecting]
    let s := { s with connectId := mkUUID s.uuidCounter,
                      taskId := mkUUID (s.uuidCounter + 1),
                      uuidCounter := s.uuidCounter + 2 }
    match oc with
    | ConnectOutcome.ctorThrow msg =>
      { st := { s with connectionState := ConnectionState.error }
        acts := acts0 ++ [Act.evStatus ASRStatus.error, Act.evError msg]
        promise := PromiseResult.rejected msg }
    | ConnectOutcome.openOk =>
      let s := { s with ws := some WsReadyState.openRS,
                        connectionState := ConnectionState.connected }
      let (s1, startActs) := sendStartTranscription s
      { st := s1, acts := acts0 ++ startActs, promise := PromiseResult.resolved }
    | ConnectOutcome.errorBeforeOpen msg thenClose =>
      let s := { s with ws := some WsReadyState.connectingRS }
      if thenClose then
        let (s1, dActs) := handleDisconnection s
        { st := s1
          acts := acts0 ++ [Act.evError msg] ++ dActs
          promise := PromiseResult.rejected msg }
      else
        { st := s
          acts := acts0 ++ [Act.evError msg]
          promise := PromiseResult.rejected msg }
    | ConnectOutcome.closeBeforeOpen =>
      let s := { s with ws := some WsReadyState.connectingRS }
      let (s1, dActs) := handleDisconnection s
      { st := s1, acts := acts0 ++ dActs, promise := PromiseResult.pending }
    | ConnectOutcome.timeout =>
      let s := cleanup { s with ws := some WsReadyState.connectingRS }
      { st := { s with connectionState := ConnectionState.error }
        acts := acts0 ++ [Act.evStatus ASRStatus.error, Act.evError "Connection timeout"]
        promise := PromiseResult.rejected "Connection timeout" }

/-- The reconnect timer fires: the callback awaits connect() and zeroes
the attempt counter only when that connect resolved; a rejection is
merely logged, and a pending promise suspends the callback forever. -/
def reconnectTimerFires (s : ClientState) (oc : ConnectOutcome) : ClientState × List Act :=
  let s0 := { s with reconnectScheduled := false }
  let res := connect s0 oc
  match res.promise with
  | PromiseResult.resolved =>
    ({ res.st with reconnectAttempts := 0 }, res.acts)
  | _ => (res.st, res.acts)

end VolcengineClient

/-- Run the initial disconnection of an active session followed by `n`
reconnect-timer firings that each fail with a transport error whose
close event chains the next disconnection, accumulating all actions. -/
def failedReconnectLoop : Nat → ClientState × List Act → ClientState × List Act
  | 0, p => p
  | n + 1, (s, acts) =>
    let (s1, a1) := VolcengineClient.reconnectTimerFires s
      (ConnectOutcome.errorBeforeOpen "network error" true)
    failedReconnectLoop n (s1, acts ++ a1)

/-- The 10-second ceiling of waitForFinalResult (TIMEOUT_MS). -/
def WAIT_TIMEOUT_MS : Nat := 10000

/-- The 500ms grace window after a done status. -/
def GRACE_MS : Nat := 500

/-- A client emission during the final-result wait, stamped with its
arrival time in milliseconds from the moment stop() registered the
wait. -/
inductive TimedEv
  | result (time : Nat) (r : ASRResult)
  | status (time : Nat) (st : ASRStatus)
deriving DecidableEq

/-- Arrival time of a timed emission. -/
def TimedEv.time : TimedEv → Nat
  | TimedEv.result t _ => t
  | TimedEv.status t _ => t

/-- Arrival times are nondecreasing along the timeline. -/
def timesSorted : List TimedEv → Bool
  | [] => true
  | [_] => true
  | a :: b :: rest => a.time ≤ b.time && timesSorted (b :: rest)

/-- No emission in the timeline is a final result event. -/
def noFinalResultEv (evs : List TimedEv) : Bool :=
  evs.all fun e =>
    match e with
    | TimedEv.result _ r => !r.isFinal
    | _ => true

/-- No emission in the timeline is a done status event. -/
def noDoneStatusEv (evs : List TimedEv) : Bool :=
  evs.all fun e =>
    match e with
    | TimedEv.status _ st => !(st == ASRStatus.done)
    | _ => true

/-- The `a ?? b` operator on options. -/
def firstSome (a b : Option ASRResult) : Option ASRResult :=
  match a with
  | some x => some x
  | none => b

/-- State of one waitForFinalResult invocation together with the service
fields its surrounding listeners touch.  `resolved` is the source's
boolean guard; `resolution` / `resolvedAt` record the unique promise
settlement; `finalResult` / `lastResult` / `svcStatus` are the
ASRService fields updated by the listeners installed in
setupClientListeners (which run before the wait's own handlers, having
been registered first); `graceTimers` holds the deadlines of armed
500ms grace timers in arming order; `mainTimerOn` tracks whether the
10s timeout is still armed; the two handler flags track whether the
wait's result / status handlers are still registered on the client. -/
structure WaitMachine where
  resolved : Bool
  resolution : Option (Option ASRResult)
  resolvedAt : Option Nat
  finalResult : Option ASRResult
  lastResult : Option ASRResult
  svcStatus : ASRStatus
  graceTimers : List Nat
  mainTimerOn : Bool
  resultHandlerOn : Bool
  statusHandlerOn : Bool
deriving DecidableEq

/-- Record the unique settlement of the wait's promise. -/
def resolveWith (m : WaitMachine) (t : Nat) (v : Option ASRResult) : WaitMachine :=
  { m with resolved := true, resolution := some v, resolvedAt := some t }

/-- The machine as waitForFinalResult leaves it synchronously: when a
final result is already stored it resolves immediately and registers
nothing; otherwise both handlers are registered and the 10s timer is
armed. -/
def initWait (fr lr : Option ASRResult) (st : ASRStatus) : WaitMachine :=
  match fr with
  | some r =>
    { resolved := true, resolution := some (some r), resolvedAt := some 0
      finalResult := fr, lastResult := lr, svcStatus := st
      graceTimers := [], mainTimerOn := false
      resultHandlerOn := false, statusHandlerOn := false }
  | none =>
    { resolved := false, resolution := none, resolvedAt := none
      finalResult := none, lastResult := lr, svcStatus := st
      graceTimers := [], mainTimerOn := true
      resultHandlerOn := true, statusHandlerOn := true }

/-- The 10s timeout callback: disarm, and unless already resolved, remove
the result handler (the status handler is not removed here) and
resolve with finalResult ?? lastResult. -/
def fireMainTimer (m : WaitMachine) : WaitMachine :=
  let m := { m with mainTimerOn := false }
  if m.resolved then m
  else resolveWith { m with resultHandlerOn := false }
    WAIT_TIMEOUT_MS (firstSome m.finalResult m.lastResult)

/-- A grace-window callback with deadline `d`: remove that timer, and
unless already resolved, remove both handlers, clear the 10s timer and
resolve with finalResult ?? lastResult. -/
def fireGraceTimer (m : WaitMachine) (d : Nat) : WaitMachine :=
  let m := { m with graceTimers := m.graceTimers.erase d }
  if m.resolved then m
  else resolveWith
    { m with resultHandlerOn := false, statusHandlerOn := false, mainTimerOn := false }
    d (firstSome m.finalResult m.lastResult)

/-- Armed timers with their deadlines: the 10s timer (armed first) then
the grace timers in arming order. -/
def timerDeadlines (m : WaitMachine) : List (Nat × Bool) :=
  (if m.mainTimerOn then [(WAIT_TIMEOUT_MS, true)] else [])
    ++ m.graceTimers.map fun d => (d, false)

/-- Fold that picks the entry with minimal deadline, keeping the earlier
entry on ties, as the event loop fires timers in insertion order among
equal deadlines. -/
def pickMin (acc : Option (Nat × Bool)) : List (Nat × Bool) → Option (Nat × Bool)
  | [] => acc
  | p :: rest =>
    match acc with
    | none => pickMin (some p) rest
    | some q => pickMin (if p.1 < q.1 then some p else some q) rest

/-- The next timer the event loop would fire, if any. -/
def nextTimer (m : WaitMachine) : Option (Nat × Bool) :=
  pickMin none (timerDeadlines m)

/-- Number of armed timers; strictly decreases at each firing. -/
def timerCount (m : WaitMachine) : Nat :=
  (if m.mainTimerOn then 1 else 0) + m.graceTimers.length

/-- Fire one timer entry. -/
def fireStep (m : WaitMachine) (p : Nat × Bool) : WaitMachine :=
  if p.2 then fireMainTimer m else fireGraceTimer m p.1

/-- Fire, in deadline order, every armed timer whose deadline is at most
`t`.  The fuel is an upper bound on the number of firings; since each
firing disarms the timer it fires, `timerCount` is exact. -/
def fireUpToLoop : Nat → WaitMachine → Nat → WaitMachine
  | 0, m, _ => m
  | fuel + 1, m, t =>
    match nextTimer m with
    | none => m
    | some p => if p.1 ≤ t then fireUpToLoop fuel (fireStep m p) t else m

/-- Advance the event loop's clock to `t`, firing due timers in order. -/
def fireTimersUpTo (m : WaitMachine) (t : Nat) : WaitMachine :=
  fireUpToLoop (timerCount m) m t

/-- Fire every remaining armed timer in deadline order. -/
def fireAllLoop : Nat → WaitMachine → WaitMachine
  | 0, m => m
  | fuel + 1, m =>
    match nextTimer m with
    | none => m
    | some p => fireAllLoop fuel (fireStep m p)

/-- Drain all armed timers (the end of the timeline). -/
def fireAllTimers (m : WaitMachine) : WaitMachine :=
  fireAllLoop (timerCount m) m

/-- Deliver one client emission.  The setupClientListeners listener runs
first (updating lastResult / finalResult on results and the service
status on statuses); then the wait's own handlers run: the result
handler resolves with the event's result when it is final, removing
itself and clearing the 10s timer but not the status handler; the
status handler arms a 500ms grace timer on a done status. -/
def processEvent (m : WaitMachine) (e : TimedEv) : WaitMachine :=
  match e with
  | TimedEv.result t r =>
    let m := { m with lastResult := some r,
                      finalResult := if r.isFinal then some r else m.finalResult }
    if m.resultHandlerOn && r.isFinal && !m.resolved then
      resolveWith { m with resultHandlerOn := false, mainTimerOn := false } t (some r)
    else m
  | TimedEv.status t st =>
    let m := { m with svcStatus := st }
    if m.statusHandlerOn && st == ASRStatus.done && !m.resolved then
      { m with graceTimers := m.graceTimers ++ [t + GRACE_MS] }
    else m

/-- Process a timeline: before each emission the clock advances to its
arrival time (firing due timers), and after the last emission every
remaining timer fires. -/
def runWaitAux (m : WaitMachine) : List TimedEv → WaitMachine
  | [] => fireAllTimers m
  | e :: rest => runWaitAux (processEvent (fireTimersUpTo m e.time) e) rest

/-- Outcome of one waitForFinalResult invocation: final machine, resolved
value and resolution time. -/
structure WaitRes where
  machine : WaitMachine
  value : Option ASRResult
  time : Nat

/-- Mutable fields of the ASRService coordinator. -/
structure ServiceState where
  client : Option ClientState
  status : ASRStatus
  finalResult : Option ASRResult
  lastResult : Option ASRResult

namespace ASRService

/-- ASRService.waitForFinalResult applied to a timeline of client
emissions: immediate resolution when a final result is already stored
(the timeline then never interacts with the wait), otherwise the
race of the result handler, the done-status grace window and the 10s
ceiling. -/
def waitForFinalResult (svc : ServiceState) (evs : List TimedEv) : WaitRes :=
  let m0 := initWait svc.finalResult svc.lastResult svc.status
  let mf := if m0.resolved then m0 else runWaitAux m0 evs
  { machine := mf, value := mf.resolution.getD none, time := mf.resolvedAt.getD 0 }

end ASRService

/-- Notifications pushed to the UI collaborator (floatingWindow). -/
inductive UINote
  | status (s : ASRStatus)
  | result (r : ASRResult)
  | error (msg : String)
deriving DecidableEq

/-- Externally observable actions of the coordinator: events emitted to
its own listeners and notifications sent to the floating window. -/
inductive SAct
  | emitStatus (s : ASRStatus)
  | emitResult (r : ASRResult)
  | emitError (msg : String)
  | ui (n : UINote)
deriving DecidableEq

namespace ASRService

/-- ASRService.updateStatus: set the field, emit the status event, notify
the floating window. -/
def updateStatus (svc : ServiceState) (st : ASRStatus) : ServiceState × List SAct :=
  ({ svc with status := st },
   [SAct.emitStatus st, SAct.ui (UINote.status st)])

/-- One listener dispatch of setupClientListeners: status events update
the coordinator status; result events record last / final results and
fan out; error events flip the status to error and fan the message
out.  Wire sends and timer arming are not listener events. -/
def onClientAct (svc : ServiceState) (a : Act) : ServiceState × List SAct :=
  match a with
  | Act.evStatus st => updateStatus svc st
  | Act.evResult r =>
    ({ svc with lastResult := some r,
                finalResult := if r.isFinal then some r else svc.finalResult },
     [SAct.emitResult r, SAct.ui (UINote.result r)])
  | Act.evError msg =>
    let (svc1, sacts) := updateStatus svc ASRStatus.error
    (svc1, sacts ++ [SAct.emitError msg, SAct.ui (UINote.error msg)])
  | _ => (svc, [])

/-- Deliver a client action trace through the coordinator's listeners in
order. -/
def relayClientActs (svc : ServiceState) : List Act → ServiceState × List SAct
  | [] => (svc, [])
  | a :: rest =>
    let (svc1, s1) := onClientAct svc a
    let (svc2, s2) := relayClientActs svc1 rest
    (svc2, s1 ++ s2)

/-- ASRService.cleanup: remove the client listeners, disconnect the
client (its emissions are no longer heard, though its wire sends still
happen, returned here as the third component), drop it, and reset the
status to idle. -/
def cleanup (svc : ServiceState) : ServiceState × List SAct × List Act :=
  match svc.client with
  | some c =>
    let (_, cacts) := VolcengineClient.disconnect c
    let (svc1, sacts) := updateStatus { svc with client := none } ASRStatus.idle
    (svc1, sacts, cacts)
  | none =>
    let (svc1, sacts) := updateStatus svc ASRStatus.idle
    (svc1, sacts, [])

/-- Copy the service fields the wait's surrounding listeners maintained
back into the service state. -/
def absorbWait (svc : ServiceState) (m : WaitMachine) : ServiceState :=
  { svc with finalResult := m.finalResult, lastResult := m.lastResult,
             status := m.svcStatus }

/-- ASRService.stop applied to the timeline of client emissions that
would follow finishAudio: with no client or an idle status, return
null; with a connected client, signal end of audio, run the bounded
wait, tear down and return its value; otherwise tear down and return
the stored final result. -/
def stop (svc : ServiceState) (evs : List TimedEv) :
    ServiceState × List SAct × Option ASRResult :=
  match svc.client with
  | none => (svc, [], none)
  | some c =>
    if svc.status == ASRStatus.idle then (svc, [], none)
    else if VolcengineClient.isConnected c then
      let (c1, facts) := VolcengineClient.finishAudio c
      let (svc1, sacts1) := relayClientActs { svc with client := some c1 } facts
      let w := waitForFinalResult svc1 evs
      let svc2 := absorbWait svc1 w.machine
      let (svc3, sacts2, _) := cleanup svc2
      (svc3, sacts1 ++ sacts2, w.value)
    else
      let (svc3, sacts2, _) := cleanup svc
      (svc3, sacts2, svc.finalResult)

/-- ASRService.reset: clear the results and set the status field directly
(no event is emitted here). -/
def reset (svc : ServiceState) : ServiceState :=
  { svc with finalResult := none, lastResult := none, status := ASRStatus.idle }

/-- ASRService.processAudioChunk: dropped without a connected client or
outside the listening status; otherwise forwarded to sendAudio. -/
def processAudioChunk (svc : ServiceState) (chunk : List Nat) :
    ServiceState × List Act :=
  match svc.client with
  | none => (svc, [])
  | some c =>
    if !(VolcengineClient.isConnected c) then (svc, [])
    else if !(svc.status == ASRStatus.listening) then (svc, [])
    else
      let (c1, acts) := VolcengineClient.sendAudio c chunk
      ({ svc with client := some c1 }, acts)

end ASRService

/-- What loadASRConfig did: produced a configuration, or threw a
ConfigurationError with the given message. -/
inductive ConfigOutcome
  | ok (cfg : VolcengineClientConfig)
  | missing (msg : String)

/-- How a start() call ended: resolved; threw a ConfigurationError;
threw the connect error onward; or never returned because the connect
promise never settled. -/
inductive StartOutcome
  | ok
  | configError (msg : String)
  | connectError (msg : String)
  | hung
deriving DecidableEq

/-- A freshly constructed VolcengineClient instance. -/
def initialClient (cfg : VolcengineClientConfig) : ClientState :=
  { config := cfg, ws := none, connectionState := ConnectionState.disconnected
    taskId := "", connectId := "", audioIndex := 0, reconnectAttempts := 0
    reconnectScheduled := false, sessionStarted := false, uuidCounter := 0 }

namespace ASRService

/-- ASRService.start, with the configuration load and the transport's
behaviour supplied as outcomes (and a timeline for the implicit stop
of a still-active prior session).  A non-idle status first stops the
prior session; reset; a configuration error flips to error, notifies
and re-raises; otherwise a fresh client is built, listeners wired,
status set to connecting, and connect() awaited: resolution returns,
rejection flips to error, notifies the UI with the error text, tears
the client down and re-raises. -/
def start (svc : ServiceState) (priorStopEvs : List TimedEv)
    (cfgo : ConfigOutcome) (oc : ConnectOutcome) :
    ServiceState × List SAct × StartOutcome :=
  let (svc, sacts0) :=
    if !(svc.status == ASRStatus.idle) then
      let (svc1, s1, _) := stop svc priorStopEvs
      (svc1, s1)
    else (svc, [])
  let svc := reset svc
  match cfgo with
  | ConfigOutcome.missing msg =>
    let (svc1, s1) := updateStatus svc ASRStatus.error
    (svc1, sacts0 ++ s1 ++ [SAct.emitError msg, SAct.ui (UINote.error msg)],
     StartOutcome.configError msg)
  | ConfigOutcome.ok cfg =>
    let c0 := initialClient cfg
    let svc := { svc with client := some c0 }
    let (svc, s2) := updateStatus svc ASRStatus.connecting
    let res := VolcengineClient.connect c0 oc
    let (svc3, s3) := relayClientActs { svc with client := some res.st } res.acts
    match res.promise with
    | PromiseResult.resolved => (svc3, sacts0 ++ s2 ++ s3, StartOutcome.ok)
    | PromiseResult.pending => (svc3, sacts0 ++ s2 ++ s3, StartOutcome.hung)
    | PromiseResult.rejected msg =>
      let (svc4, s4) := updateStatus svc3 ASRStatus.error
      let s5 := [SAct.emitError msg, SAct.ui (UINote.error ("Connection failed: " ++ msg))]
      let (svc5, s6, _) := cleanup svc4
      (svc5, sacts0 ++ s2 ++ s3 ++ s4 ++ s5 ++ s6, StartOutcome.connectError msg)

end ASRService

/-- Claim-side reading of the C8 extraction rule exactly as worded: the
payload result's text field when present, else the concatenation of
the sentence fragments' texts. -/
def specExtractText (r : TranscriptionResult) : String :=
  match r.text with
  | some t => t
  | none => String.join ((r.sentences.getD []).map fun sf => sf.text)

/-- Claim-side reading of the C8 extraction rule as amended: the text
field only when present and non-empty; otherwise the sentence
concatenation when a sentences array is present; empty otherwise. -/
def specExtractTextAmended (r : TranscriptionResult) : String :=
  match r.text with
  | some t =>
    if t = "" then
      match r.sentences with
      | some ss => String.join (ss.map fun sf => sf.text)
      | none => ""
    else t
  | none =>
    match r.sentences with
    | some ss => String.join (ss.map fun sf => sf.text)
    | none => ""

/-- The last result event strictly before the cutoff time, if any. -/
def lastResBefore (cut : Nat) : List TimedEv → Option ASRResult
  | [] => none
  | e :: rest =>
    firstSome (lastResBefore cut rest)
      (match e with
       | TimedEv.result t r => if t < cut then some r else none
       | _ => none)

/-- A cold-start client: disconnected, no socket, no reconnection history. -/
def ColdStart (s : ClientState) : Prop :=
  s.connectionState = ConnectionState.disconnected ∧ s.ws = none
  ∧ s.reconnectAttempts = 0 ∧ s.reconnectScheduled = false

/-- The canonical unresolved wait machine: no final result seen, last
result `L`, service status `st`, both handlers registered, only the
10s timer armed. -/
def mkPending (L : Option ASRResult) (st : ASRStatus) : WaitMachine :=
  { resolved := false, resolution := none, resolvedAt := none
    finalResult := none, lastResult := L, svcStatus := st
    graceTimers := [], mainTimerOn := true
    resultHandlerOn := true, statusHandlerOn := true }

/-- The canonical machine after the 10s ceiling fired on a pending wait
with last result `L`: settled with `L` at the ceiling, result handler
removed, status handler still registered. -/
def mkTimedOut (L : Option ASRResult) (st : ASRStatus) : WaitMachine :=
  { resolved := true, resolution := some L, resolvedAt := some WAIT_TIMEOUT_MS
    finalResult := none, lastResult := L, svcStatus := st
    graceTimers := [], mainTimerOn := false
    resultHandlerOn := false, statusHandlerOn := true }

/-- Structural invariant of the wait machine: the resolved guard tracks
an actual settlement, a settled wait has dropped its result handler,
and an unsettled wait still has the 10s ceiling armed. -/
def WaitInv (m : WaitMachine) : Prop :=
  m.resolved = m.resolution.isSome
  ∧ (m.resolved = true → m.resultHandlerOn = false)
  ∧ (m.resolved = false → m.mainTimerOn = true)

/-- Delays of the reconnect timers armed in an action trace, in order. -/
def scheduledDelays (acts : List Act) : List Nat :=
  acts.filterMap fun a =>
    match a with
    | Act.schedule d => some d
    | _ => none

/-- Occurrences of the terminal reconnect-exhausted error event in a
trace. -/
def countExhaustedErrors (acts : List Act) : Nat :=
  acts.countP fun a => a == Act.evError "Max reconnection attempts reached"

/-- A client in the middle of an active session whose fresh-name supply
stands at `u + 3` (ids `u`, `u + 1` and the session-start message id
`u + 2` consumed), with no reconnection history. -/
def activeClientU (cfg : VolcengineClientConfig) (u : Nat) : ClientState :=
  { config := cfg, ws := some WsReadyState.openRS
    connectionState := ConnectionState.connected
    taskId := mkUUID (u + 1), connectId := mkUUID u
    audioIndex := 0, reconnectAttempts := 0, reconnectScheduled := false
    sessionStarted := true, uuidCounter := u + 3 }

/-- A sample configuration. -/
def cfg0 : VolcengineClientConfig :=
  { appId := "app", accessToken := "token", resourceId := "volc.bigasr.sauc.duration" }

/-- A freshly constructed sample client. -/
def client0 : ClientState := initialClient cfg0

/-- A sample client in an active session. -/
def activeClient0 : ClientState := activeClientU cfg0 0

/-- A sample coordinator with no session. -/
def svc0 : ServiceState :=
  { client := none, status := ASRStatus.idle, finalResult := none, lastResult := none }

/-- A sample interim result. -/
def rInterim : ASRResult :=
  { rtype := ResultType.interim, text := "hello", isFinal := false }

/-- A sample final result. -/
def rFinal : ASRResult :=
  { rtype := ResultType.final, text := "hello world", isFinal := true }

/-- A frame whose header misses task_id, namespace and name: rejected by
volcengineMessageSchema. -/
def malformedFrame : Json :=
  Json.obj [("header", Json.obj [("message_id", Json.str "m1")]),
            ("payload", Json.obj [])]

/-- The C8 counterexample frame: a result-changed message whose payload
result carries a present-but-empty text field alongside a sentences
array with text "hi". -/
def cexResultMsg : VolcInMessage :=
  { header :=
      { message_id := "m1", task_id := "t1", nspace := PROTOCOL_NAMESPACE
        name := MSG_RESULT_CHANGED, status := none, status_message := none }
    payload :=
      Json.obj [("result",
        Json.obj [("text", Json.str ""),
                  ("sentences", Json.arr [Json.obj [("text", Json.str "hi")]])])] }

/-- The parsed inner result of the C8 counterexample frame. -/
def cexTResult : TranscriptionResult :=
  { text := some "", sentences := some [⟨"hi", none, none, none⟩], is_complete := none }

/-- Claim C7: every incoming raw message that is invalid JSON, or whose
JSON does not validate against the protocol frame schema, is dropped
by handleMessage without throwing, without emitting any event, and
without changing any client state. -/
theorem c7_malformed_frames_dropped (s : ClientState) (data : Option Json)
    (h : ∀ raw, data = some raw → volcengineMessageSchema raw = none) :
    VolcengineClient.handleMessage s data = (s, []) := by
  cases data with
  | none => rfl
  | some raw =>
    simp only [VolcengineClient.handleMessage, h raw rfl]

/-- Witness for C7: a frame whose header misses required fields, and
invalid JSON, are both dropped from a live client with no state
change and no emission. -/
theorem c7_witness :
    VolcengineClient.handleMessage activeClient0 (some malformedFrame)
      = (activeClient0, []) := by
  exact c7_malformed_frames_dropped activeClient0 (some malformedFrame)
    (fun raw h => by
      injection h with h2
      rw [← h2]
      rfl)

/-- Counterexample to claim C8 as stated: on a result-changed frame whose
payload result has a present-but-empty text field next to a sentences
array ["hi"], the claim's extraction rule yields the empty string and
therefore predicts that no result event is emitted, yet the code
falls back to the sentence concatenation and emits "hi". -/
theorem c8_counterexample :
    transcriptionResultPayloadSchema cexResultMsg.payload = some ⟨some cexTResult⟩
    ∧ specExtractText cexTResult = ""
    ∧ VolcengineClient.handleTranscriptionResult activeClient0 cexResultMsg false
        = (activeClient0,
           [Act.evResult { rtype := ResultType.interim, text := "hi", isFinal := false }]) := by
  refine ⟨rfl, rfl, rfl⟩

/-- Claim C8 as amended: the emitted transcript text equals the payload
result's text field when present and non-empty, else the concatenation
of the sentence fragments' texts when a sentences array is present;
when the string obtained this way is empty (or the result object is
absent), no result event is emitted. -/
theorem c8_amended_extraction (s : ClientState) (m : VolcInMessage) (isFinal : Bool)
    (payload : TranscriptionResultPayload)
    (h : transcriptionResultPayloadSchema m.payload = some payload) :
    (payload.result = none →
      VolcengineClient.handleTranscriptionResult s m isFinal = (s, []))
    ∧ (∀ r, payload.result = some r →
        (specExtractTextAmended r = "" →
          VolcengineClient.handleTranscriptionResult s m isFinal = (s, []))
        ∧ (specExtractTextAmended r ≠ "" →
          VolcengineClient.handleTranscriptionResult s m isFinal
            = (s, [Act.evResult
                { rtype := if isFinal then ResultType.final else ResultType.interim
                  text := specExtractTextAmended r
                  isFinal := isFinal }]))) := by
  simp only [VolcengineClient.handleTranscriptionResult, h]
  constructor
  · intro hres
    rw [hres]
  · intro r hres
    rw [hres]
    have hext :
        (if (r.text.getD "" == "") && r.sentences.isSome then
          String.join ((r.sentences.getD []).map fun sf => sf.text)
        else r.text.getD "") = specExtractTextAmended r := by
      unfold specExtractTextAmended
      rcases r with ⟨t, ss, ic⟩
      cases t with
      | none =>
        cases ss with
        | none => simp
        | some l => simp
      | some t =>
        cases ss with
        | none =>
          by_cases ht : t = "" <;> simp [ht]
        | some l =>
          by_cases ht : t = "" <;> simp [ht]
    constructor
    · intro hempty
      simp only [hext, hempty]
      rfl
    · intro hne
      simp only [hext]
      simp [bne_iff_ne, hne]

/-- Witness for C8 as amended: the counterexample frame, processed as a
final result, emits the sentence concatenation "hi". -/
theorem c8_witness :
    VolcengineClient.handleTranscriptionResult client0 cexResultMsg true
      = (client0,
         [Act.evResult { rtype := ResultType.final, text := "hi", isFinal := true }]) := by
  have h := ((c8_amended_extraction client0 cexResultMsg true ⟨some cexTResult⟩ rfl).2
    cexTResult rfl).2 (by decide)
  exact h

/-- One sendAudio call on an active session: the audio frame carries the
current sequence index with is_end false, and only the index and the
fresh-name counter advance. -/
theorem sendAudio_active (s : ClientState) (c : List Nat) (hs : ActiveSession s) :
    VolcengineClient.sendAudio s c
      = ({ s with audioIndex := s.audioIndex + 1, uuidCounter := s.uuidCounter + 1 },
         [Act.send
           { header := { message_id := mkUUID s.uuidCounter, task_id := s.taskId
                         nspace := PROTOCOL_NAMESPACE, name := MSG_AUDIO_DATA }
             payload := OutPayload.audioData (VolcengineClient.arrayBufferToBase64 c)
               s.audioIndex false }]) := by
  obtain ⟨h1, h2⟩ := hs
  have hw : s.ws = some WsReadyState.openRS := by
    simp only [VolcengineClient.isConnected, Bool.and_eq_true, beq_iff_eq] at h1
    exact h1.2
  have hc : s.connectionState = ConnectionState.connected := by
    simp only [VolcengineClient.isConnected, Bool.and_eq_true, beq_iff_eq] at h1
    exact h1.1
  simp [VolcengineClient.sendAudio, VolcengineClient.isConnected, hw, hc, h2,
    VolcengineClient.buildMessage, VolcengineClient.sendMessage]

/-- One finishAudio call on an active session: emits status processing,
then the end-of-stream frame carrying the current sequence index with
is_end true and an empty audio string. -/
theorem finishAudio_active (s : ClientState) (hs : ActiveSession s) :
    VolcengineClient.finishAudio s
      = ({ s with audioIndex := s.audioIndex + 1, uuidCounter := s.uuidCounter + 1 },
         [Act.evStatus ASRStatus.processing,
          Act.send
           { header := { message_id := mkUUID s.uuidCounter, task_id := s.taskId
                         nspace := PROTOCOL_NAMESPACE, name := MSG_AUDIO_DATA }
             payload := OutPayload.audioData "" s.audioIndex true }]) := by
  obtain ⟨h1, h2⟩ := hs
  have hw : s.ws = some WsReadyState.openRS := by
    simp only [VolcengineClient.isConnected, Bool.and_eq_true, beq_iff_eq] at h1
    exact h1.2
  have hc : s.connectionState = ConnectionState.connected := by
    simp only [VolcengineClient.isConnected, Bool.and_eq_true, beq_iff_eq] at h1
    exact h1.1
  simp [VolcengineClient.finishAudio, VolcengineClient.isConnected, hw, hc, h2,
    VolcengineClient.buildMessage, VolcengineClient.sendMessage]

/-- audioFrames distributes over trace concatenation. -/
theorem audioFrames_append (xs ys : List Act) :
    audioFrames (xs ++ ys) = audioFrames xs ++ audioFrames ys :=
  List.filterMap_append xs ys _

/-- A run of sendAudio calls on an active session emits exactly the
consecutive sequence indices starting at the current counter, all with
is_end false, advancing the counter by the number of chunks and
leaving the connection fields untouched. -/
theorem runSends_frames (chunks : List (List Nat)) :
    ∀ s, ActiveSession s →
      audioFrames (runSends s chunks).2
          = (List.range' s.audioIndex chunks.length).map (fun i => (i, false))
      ∧ (runSends s chunks).1.audioIndex = s.audioIndex + chunks.length
      ∧ (runSends s chunks).1.ws = s.ws
      ∧ (runSends s chunks).1.connectionState = s.connectionState
      ∧ (runSends s chunks).1.sessionStarted = s.sessionStarted := by
  induction chunks with
  | nil =>
    intro s _
    simp [runSends, audioFrames]
  | cons c rest ih =>
    intro s hs
    have hs1 : ActiveSession
        ({ s with audioIndex := s.audioIndex + 1, uuidCounter := s.uuidCounter + 1 }) := by
      exact ⟨by simpa [VolcengineClient.isConnected] using hs.1, hs.2⟩
    have hrec := ih _ hs1
    simp only [runSends, sendAudio_active s c hs]
    refine ⟨?_, ?_, ?_, ?_, ?_⟩
    · rw [audioFrames_append, hrec.1]
      simp [audioFrames, List.range'_succ]
    · rw [hrec.2.1]
      simp only [List.length_cons]
      omega
    · exact hrec.2.2.1
    · exact hrec.2.2.2.1
    · exact hrec.2.2.2.2

/-- Claim C6: during one active connection, the sequence indices carried
by the audio frames of any run of sendAudio calls, optionally followed
by one finishAudio, are exactly 0, 1, 2, ... with no gaps or repeats,
the end-of-stream frame carrying the next index with the terminal
flag; and the counter is reset to zero at the start of each new
connection (by reset, hence by every non-short-circuited connect). -/
theorem c6_sequence_numbers (s : ClientState) (chunks : List (List Nat))
    (hs : ActiveSession s) (h0 : s.audioIndex = 0) :
    audioFrames (runSends s chunks).2
        = (List.range chunks.length).map (fun i => (i, false))
    ∧ audioFrames ((runSends s chunks).2
          ++ (VolcengineClient.finishAudio (runSends s chunks).1).2)
        = (List.range chunks.length).map (fun i => (i, false)) ++ [(chunks.length, true)]
    ∧ (∀ s2 : ClientState, (VolcengineClient.reset s2).audioIndex = 0)
    ∧ (∀ s2 : ClientState, VolcengineClient.isConnected s2 = false →
        ((VolcengineClient.connect s2 ConnectOutcome.openOk).st).audioIndex = 0) := by
  have hrun := runSends_frames chunks s hs
  have hsrun : ActiveSession (runSends s chunks).1 := by
    constructor
    · simp only [VolcengineClient.isConnected] at hs ⊢
      rw [hrun.2.2.1, hrun.2.2.2.1]
      exact hs.1
    · rw [hrun.2.2.2.2]
      exact hs.2
  have hmain : audioFrames (runSends s chunks).2
      = (List.range chunks.length).map (fun i => (i, false)) := by
    rw [hrun.1, h0, ← List.range_eq_range']
  refine ⟨hmain, ?_, ?_, ?_⟩
  · rw [audioFrames_append, hmain, finishAudio_active _ hsrun]
    simp [audioFrames, hrun.2.1, h0]
  · intro s2
    rfl
  · intro s2 hnc
    simp [VolcengineClient.connect, hnc, VolcengineClient.reset,
      VolcengineClient.sendStartTranscription, VolcengineClient.buildMessage,
      VolcengineClient.sendMessage]

/-- Witness for C6: two chunks then finishAudio from a live session emit
indices 0, 1 and the terminal frame with index 2. -/
theorem c6_witness :
    (ActiveSession activeClient0 ∧ activeClient0.audioIndex = 0)
    ∧ audioFrames (runSends activeClient0 [[1, 2], [3]]).2
        = (List.range 2).map (fun i => (i, false)) :=
  ⟨⟨by decide, rfl⟩,
   (c6_sequence_numbers activeClient0 [[1, 2], [3]] (by decide) rfl).1⟩

/-- Claim C9: a stop() with an existing client, a non-idle status but a
client that is not connected skips finishAudio and the final-result
wait entirely (its outcome does not depend on the emission timeline),
tears the client down, resets the status to idle and returns the
stored final result, which may be a previously received final result
rather than null. -/
theorem c9_stop_disconnected_client (svc : ServiceState) (c : ClientState)
    (evs : List TimedEv)
    (h1 : svc.client = some c) (h2 : svc.status ≠ ASRStatus.idle)
    (h3 : VolcengineClient.isConnected c = false) :
    (ASRService.stop svc evs).2.2 = svc.finalResult
    ∧ ASRService.stop svc evs = ASRService.stop svc []
    ∧ (ASRService.stop svc evs).1.client = none
    ∧ (ASRService.stop svc evs).1.status = ASRStatus.idle := by
  simp [ASRService.stop, h1, h2, h3, ASRService.cleanup, ASRService.updateStatus]

/-- Witness for C9: stopping a session whose client exists but is
disconnected, with a stored final result, returns that result. -/
theorem c9_witness :
    ({ client := some client0, status := ASRStatus.done, finalResult := some rFinal,
       lastResult := some rFinal } : ServiceState).status ≠ ASRStatus.idle
    ∧ VolcengineClient.isConnected client0 = false
    ∧ (ASRService.stop
        { client := some client0, status := ASRStatus.done, finalResult := some rFinal,
          lastResult := some rFinal } []).2.2 = some rFinal :=
  ⟨by decide, by decide,
   (c9_stop_disconnected_client _ client0 [] rfl (by decide) (by decide)).1⟩

/-- Claim C10: an unexpected disconnection of a previously active session
(state neither disconnected nor error) emits status idle and moves the
connection state to disconnected before any reconnect is scheduled, so
the coordinator's relay delivers an idle status to the UI in the
middle of a logically ongoing session; below the attempt cap the trace
is exactly the idle event followed by the backoff timer arming, with
the client left in the reconnecting state. -/
theorem c10_disconnection_emits_idle (s : ClientState)
    (h1 : s.connectionState ≠ ConnectionState.disconnected)
    (h2 : s.connectionState ≠ ConnectionState.error) :
    VolcengineClient.handleDisconnection s
      = ((VolcengineClient.scheduleReconnect
            { VolcengineClient.cleanup s with
                connectionState := ConnectionState.disconnected }).1,
         Act.evStatus ASRStatus.idle
           :: (VolcengineClient.scheduleReconnect
                { VolcengineClient.cleanup s with
                    connectionState := ConnectionState.disconnected }).2)
    ∧ (VolcengineClient.handleDisconnection s).2.head?
        = some (Act.evStatus ASRStatus.idle)
    ∧ (∀ svc : ServiceState,
        ((ASRService.relayClientActs svc
            (VolcengineClient.handleDisconnection s).2).2).take 2
          = [SAct.emitStatus ASRStatus.idle, SAct.ui (UINote.status ASRStatus.idle)])
    ∧ (s.reconnectAttempts < RECONNECT_MAX_ATTEMPTS →
        (VolcengineClient.handleDisconnection s).2
          = [Act.evStatus ASRStatus.idle,
             Act.schedule (min (RECONNECT_BASE_DELAY_MS * 2 ^ s.reconnectAttempts)
               RECONNECT_MAX_DELAY_MS)]
        ∧ (VolcengineClient.handleDisconnection s).1.connectionState
            = ConnectionState.reconnecting) := by
  have hmain : VolcengineClient.handleDisconnection s
      = ((VolcengineClient.scheduleReconnect
            { VolcengineClient.cleanup s with
                connectionState := ConnectionState.disconnected }).1,
         Act.evStatus ASRStatus.idle
           :: (VolcengineClient.scheduleReconnect
                { VolcengineClient.cleanup s with
                    connectionState := ConnectionState.disconnected }).2) := by
    simp [VolcengineClient.handleDisconnection, VolcengineClient.cleanup, h1, h2]
  refine ⟨hmain, ?_, ?_, ?_⟩
  · rw [hmain]
    rfl
  · intro svc
    rw [hmain]
    simp [ASRService.relayClientActs, ASRService.onClientAct, ASRService.updateStatus]
  · intro hlt
    rw [hmain]
    constructor
    · simp [VolcengineClient.scheduleReconnect, VolcengineClient.cleanup,
        Nat.not_le.mpr hlt]
    · simp [VolcengineClient.scheduleReconnect, VolcengineClient.cleanup,
        Nat.not_le.mpr hlt]

/-- Witness for C10: a connected client's unexpected disconnection emits
idle then arms the 1s backoff timer, entering the reconnecting state. -/
theorem c10_witness :
    activeClient0.connectionState ≠ ConnectionState.disconnected
    ∧ activeClient0.connectionState ≠ ConnectionState.error
    ∧ (VolcengineClient.handleDisconnection activeClient0).2.head?
        = some (Act.evStatus ASRStatus.idle) :=
  ⟨by decide, by decide,
   (c10_disconnection_emits_idle activeClient0 (by decide) (by decide)).2.1⟩

/-- Counterexample to claim C1 as stated: from a cold-start client, a
transport close before open leaves the connect() promise pending
(it never rejects: reject is reachable only from the constructor
throw, the timeout, or the error handler) and the close handler's
handleDisconnection, finding the state still connecting, schedules a
reconnect — the claim asserts the promise rejects and that no
reconnect is ever scheduled on an initial connect failure. -/
theorem c1_counterexample :
    ColdStart client0
    ∧ (VolcengineClient.connect client0 ConnectOutcome.closeBeforeOpen).promise
        = PromiseResult.pending
    ∧ scheduledDelays
        (VolcengineClient.connect client0 ConnectOutcome.closeBeforeOpen).acts
        = [1000] :=
  ⟨⟨rfl, rfl, rfl, rfl⟩, rfl, rfl⟩

/-- Claim C1 as amended: on a cold-start connect, a constructor failure
or a 30s timeout rejects the promise with the connection error and
schedules no reconnect; a transport error before open also rejects the
promise, but when (as the ws library does) a close event follows, the
close handler schedules a reconnect because the connection state is
still connecting; a bare close before open schedules a reconnect
without ever settling the promise.  Reconnection is thus not limited
to previously active sessions. -/
theorem c1_amended_cold_start (s : ClientState) (msg : String) (h : ColdStart s) :
    ((VolcengineClient.connect s (ConnectOutcome.ctorThrow msg)).promise
        = PromiseResult.rejected msg
      ∧ scheduledDelays (VolcengineClient.connect s (ConnectOutcome.ctorThrow msg)).acts
          = [])
    ∧ ((VolcengineClient.connect s ConnectOutcome.timeout).promise
        = PromiseResult.rejected "Connection timeout"
      ∧ scheduledDelays (VolcengineClient.connect s ConnectOutcome.timeout).acts = [])
    ∧ ((VolcengineClient.connect s (ConnectOutcome.errorBeforeOpen msg false)).promise
        = PromiseResult.rejected msg
      ∧ scheduledDelays
          (VolcengineClient.connect s (ConnectOutcome.errorBeforeOpen msg false)).acts
          = [])
    ∧ ((VolcengineClient.connect s (ConnectOutcome.errorBeforeOpen msg true)).promise
        = PromiseResult.rejected msg
      ∧ scheduledDelays
          (VolcengineClient.connect s (ConnectOutcome.errorBeforeOpen msg true)).acts
          = [RECONNECT_BASE_DELAY_MS])
    ∧ ((VolcengineClient.connect s ConnectOutcome.closeBeforeOpen).promise
        = PromiseResult.pending
      ∧ scheduledDelays
          (VolcengineClient.connect s ConnectOutcome.closeBeforeOpen).acts
          = [RECONNECT_BASE_DELAY_MS]) := by
  obtain ⟨hcs, hws, hra, hsch⟩ := h
  have hic : VolcengineClient.isConnected s = false := by
    simp [VolcengineClient.isConnected, hcs]
  refine ⟨⟨?_, ?_⟩, ⟨?_, ?_⟩, ⟨?_, ?_⟩, ⟨?_, ?_⟩, ⟨?_, ?_⟩⟩ <;>
    simp [VolcengineClient.connect, hic, VolcengineClient.reset,
      VolcengineClient.cleanup, VolcengineClient.handleDisconnection,
      VolcengineClient.scheduleReconnect, scheduledDelays, hra,
      RECONNECT_BASE_DELAY_MS, RECONNECT_MAX_DELAY_MS, RECONNECT_MAX_ATTEMPTS]

/-- Witness for C1 as amended: at a fresh client, a constructor failure
rejects with the error and schedules nothing. -/
theorem c1_witness :
    ColdStart client0
    ∧ (VolcengineClient.connect client0 (ConnectOutcome.ctorThrow "boom")).promise
        = PromiseResult.rejected "boom"
    ∧ scheduledDelays
        (VolcengineClient.connect client0 (ConnectOutcome.ctorThrow "boom")).acts = [] :=
  ⟨⟨rfl, rfl, rfl, rfl⟩,
   (c1_amended_cold_start client0 "boom" ⟨rfl, rfl, rfl, rfl⟩).1.1,
   (c1_amended_cold_start client0 "boom" ⟨rfl, rfl, rfl, rfl⟩).1.2⟩

/-- Relaying client actions through the coordinator's listeners never
touches the client reference. -/
theorem relayClientActs_client (acts : List Act) :
    ∀ svc : ServiceState, ((ASRService.relayClientActs svc acts).1).client = svc.client := by
  induction acts with
  | nil => intro svc; rfl
  | cons a rest ih =>
    intro svc
    simp only [ASRService.relayClientActs]
    rw [ih]
    cases a <;> simp [ASRService.onClientAct, ASRService.updateStatus]

/-- Counterexample to claim C2 as stated: a start() whose connect fails
with a constructor error does transition through the error status and
re-raise, but its teardown then runs updateStatus('idle'), so after
start() returns the visible status is idle, not error. -/
theorem c2_counterexample :
    (ASRService.start svc0 [] (ConfigOutcome.ok cfg0)
        (ConnectOutcome.ctorThrow "boom")).2.2 = StartOutcome.connectError "boom"
    ∧ (ASRService.start svc0 [] (ConfigOutcome.ok cfg0)
        (ConnectOutcome.ctorThrow "boom")).1.status = ASRStatus.idle
    ∧ ASRStatus.idle ≠ ASRStatus.error :=
  ⟨rfl, rfl, by decide⟩

/-- Claim C2 as amended: when connect() rejects, start() transitions the
visible status to error and delivers "Connection failed: <msg>" to the
UI collaborator, tears down the client and re-raises the error; the
teardown's final updateStatus however resets the visible status, so
after start() returns the status is idle (the error status and message
were delivered transiently, and the trace ends with the teardown's
idle notifications). -/
theorem c2_amended_start_failure (svc : ServiceState) (cfg : VolcengineClientConfig)
    (oc : ConnectOutcome) (msg : String)
    (hidle : svc.status = ASRStatus.idle)
    (hrej : (VolcengineClient.connect (initialClient cfg) oc).promise
      = PromiseResult.rejected msg) :
    (ASRService.start svc [] (ConfigOutcome.ok cfg) oc).2.2
        = StartOutcome.connectError msg
    ∧ ((ASRService.start svc [] (ConfigOutcome.ok cfg) oc).1).client = none
    ∧ ((ASRService.start svc [] (ConfigOutcome.ok cfg) oc).1).status = ASRStatus.idle
    ∧ SAct.ui (UINote.error ("Connection failed: " ++ msg))
        ∈ (ASRService.start svc [] (ConfigOutcome.ok cfg) oc).2.1
    ∧ SAct.emitStatus ASRStatus.error
        ∈ (ASRService.start svc [] (ConfigOutcome.ok cfg) oc).2.1
    ∧ SAct.ui (UINote.status ASRStatus.error)
        ∈ (ASRService.start svc [] (ConfigOutcome.ok cfg) oc).2.1
    ∧ ∃ pre, (ASRService.start svc [] (ConfigOutcome.ok cfg) oc).2.1
        = pre ++ [SAct.emitStatus ASRStatus.idle, SAct.ui (UINote.status ASRStatus.idle)] := by
  have hclient : ∀ acts svcA,
      ((ASRService.relayClientActs svcA acts).1).client = svcA.client :=
    fun acts svcA => relayClientActs_client acts svcA
  unfold ASRService.start
  rw [hidle]
  simp only [beq_self_eq_true, Bool.not_true, Bool.false_eq_true, if_false, ite_false]
  set res := VolcengineClient.connect (initialClient cfg) oc with hres
  rw [hrej]
  set svcB := ASRService.updateStatus
      { ASRService.reset svc with client := some (initialClient cfg) }
      ASRStatus.connecting with hsvcB
  set rel := ASRService.relayClientActs { svcB.1 with client := some res.st } res.acts
    with hrel
  have hrelc : (rel.1).client = some res.st := by
    rw [hrel, hclient]
  set upd := ASRService.updateStatus rel.1 ASRStatus.error with hupd
  have hupdc : (upd.1).client = some res.st := by
    rw [hupd]
    simpa [ASRService.updateStatus] using hrelc
  have hclean : ASRService.cleanup upd.1
      = ((ASRService.updateStatus { upd.1 with client := none } ASRStatus.idle).1,
         (ASRService.updateStatus { upd.1 with client := none } ASRStatus.idle).2,
         (VolcengineClient.disconnect res.st).2) := by
    simp only [ASRService.cleanup, hupdc]
  refine ⟨rfl, ?_, ?_, ?_, ?_, ?_, ?_⟩
  · simp only [hclean, ASRService.updateStatus]
  · simp only [hclean, ASRService.updateStatus]
  · simp [hclean, ASRService.updateStatus]
  · simp [hclean, ASRService.updateStatus, hupd]
  · simp [hclean, ASRService.updateStatus, hupd]
  · refine ⟨[] ++ svcB.2 ++ rel.2 ++ upd.2 ++
      [SAct.emitError msg, SAct.ui (UINote.error ("Connection failed: " ++ msg))], ?_⟩
    simp [hclean, ASRService.updateStatus]

/-- Witness for C2 as amended: the constructor-failure start ends with
status idle, no client, the error delivered, and re-raises. -/
theorem c2_witness :
    svc0.status = ASRStatus.idle
    ∧ (VolcengineClient.connect (initialClient cfg0)
        (ConnectOutcome.ctorThrow "boom")).promise = PromiseResult.rejected "boom"
    ∧ (ASRService.start svc0 [] (ConfigOutcome.ok cfg0)
        (ConnectOutcome.ctorThrow "boom")).1.client = none :=
  ⟨rfl, rfl,
   (c2_amended_start_failure svc0 cfg0 (ConnectOutcome.ctorThrow "boom") "boom"
     rfl rfl).2.1⟩

/-- Counterexample to claim C5 as stated: after the retry budget is
exhausted the attempt counter stands at 5, and a fresh connect() call
(which succeeds) leaves it at 5 — connect()'s reset() touches only the
audio counter, session flag and identities, so the retry count is not
reset to zero by a fresh connect(). -/
theorem c5_counterexample :
    (failedReconnectLoop 5
        (VolcengineClient.handleDisconnection activeClient0)).1.reconnectAttempts = 5
    ∧ (VolcengineClient.connect
        (failedReconnectLoop 5
          (VolcengineClient.handleDisconnection activeClient0)).1
        ConnectOutcome.openOk).st.reconnectAttempts = 5
    ∧ (5 : Nat) ≠ 0 :=
  ⟨by decide, by decide, by decide⟩

set_option maxRecDepth 16384 in
/-- Claim C5 as amended: an unexpected disconnection of an active session
schedules backoff retries of 1s, 2s, 4s, 8s, 16s; after the 5th
consecutive failure the client transitions to the error connection
state, emits exactly one terminal reconnect-exhausted error, and
arms no 6th timer; the error state is terminal for disconnections
(handleDisconnection is then a no-op beyond cleanup) until a fresh
connect() call — which however does not reset the retry count (only a
successful scheduled reconnect's callback or disconnect()'s
cancelReconnect does). -/
theorem c5_amended_reconnect_exhaustion (cfg : VolcengineClientConfig) (u : Nat) :
    (failedReconnectLoop 5
        (VolcengineClient.handleDisconnection (activeClientU cfg u))).1.connectionState
      = ConnectionState.error
    ∧ (failedReconnectLoop 5
        (VolcengineClient.handleDisconnection (activeClientU cfg u))).1.reconnectAttempts
      = 5
    ∧ scheduledDelays
        (failedReconnectLoop 5
          (VolcengineClient.handleDisconnection (activeClientU cfg u))).2
      = [1000, 2000, 4000, 8000, 16000]
    ∧ countExhaustedErrors
        (failedReconnectLoop 5
          (VolcengineClient.handleDisconnection (activeClientU cfg u))).2
      = 1
    ∧ VolcengineClient.handleDisconnection
        (failedReconnectLoop 5
          (VolcengineClient.handleDisconnection (activeClientU cfg u))).1
      = (VolcengineClient.cleanup
          (failedReconnectLoop 5
            (VolcengineClient.handleDisconnection (activeClientU cfg u))).1, [])
    ∧ (VolcengineClient.connect
        (failedReconnectLoop 5
          (VolcengineClient.handleDisconnection (activeClientU cfg u))).1
        ConnectOutcome.openOk).st.reconnectAttempts = 5 := by
  refine ⟨?_, ?_, ?_, ?_, ?_, ?_⟩ <;>
    simp [failedReconnectLoop, VolcengineClient.reconnectTimerFires,
      VolcengineClient.connect, VolcengineClient.isConnected, VolcengineClient.reset,
      VolcengineClient.cleanup, VolcengineClient.handleDisconnection,
      VolcengineClient.scheduleReconnect, VolcengineClient.sendStartTranscription,
      VolcengineClient.buildMessage, VolcengineClient.sendMessage, activeClientU,
      scheduledDelays, countExhaustedErrors, RECONNECT_MAX_ATTEMPTS,
      RECONNECT_BASE_DELAY_MS, RECONNECT_MAX_DELAY_MS]

/-- pickMin only returns an element of its list or its accumulator. -/
theorem pickMin_mem (l : List (Nat × Bool)) :
    ∀ acc p, pickMin acc l = some p → p ∈ l ∨ acc = some p := by
  induction l with
  | nil =>
    intro acc p h
    right
    exact h
  | cons q rest ih =>
    intro acc p h
    cases acc with
    | none =>
      simp only [pickMin] at h
      rcases ih (some q) p h with h1 | h1
      · exact Or.inl (List.mem_cons_of_mem q h1)
      · injection h1 with h2
        exact Or.inl (h2 ▸ List.mem_cons_self q rest)
    | some a =>
      simp only [pickMin] at h
      rcases ih _ p h with h1 | h1
      · exact Or.inl (List.mem_cons_of_mem q h1)
      · by_cases hlt : q.1 < a.1
        · rw [if_pos hlt] at h1
          injection h1 with h2
          exact Or.inl (h2 ▸ List.mem_cons_self q rest)
        · rw [if_neg hlt] at h1
          exact Or.inr h1

/-- pickMin is none only on the empty list with an empty accumulator. -/
theorem pickMin_eq_none (l : List (Nat × Bool)) :
    ∀ acc, pickMin acc l = none → acc = none ∧ l = [] := by
  induction l with
  | nil =>
    intro acc h
    exact ⟨h, rfl⟩
  | cons q rest ih =>
    intro acc h
    cases acc with
    | none =>
      simp only [pickMin] at h
      exact absurd (ih (some q) h).1 (by simp)
    | some a =>
      simp only [pickMin] at h
      have h1 := (ih _ h).1
      by_cases hlt : q.1 < a.1 <;> simp [hlt] at h1

/-- A machine with no next timer has nothing armed. -/
theorem nextTimer_none_fields (m : WaitMachine) (h : nextTimer m = none) :
    m.mainTimerOn = false ∧ m.graceTimers = [] := by
  unfold nextTimer at h
  have h3 : timerDeadlines m = [] := (pickMin_eq_none (timerDeadlines m) none h).2
  unfold timerDeadlines at h3
  cases hmt : m.mainTimerOn
  · rw [hmt] at h3
    simp at h3
    exact ⟨rfl, h3⟩
  · rw [hmt] at h3
    simp at h3

/-- The timer the event loop fires is an armed one. -/
theorem nextTimer_mem (m : WaitMachine) (p : Nat × Bool) (h : nextTimer m = some p) :
    p ∈ timerDeadlines m := by
  unfold nextTimer at h
  rcases pickMin_mem (timerDeadlines m) none p h with h1 | h1
  · exact h1
  · exact Option.noConfusion h1

/-- A main-timer entry in the deadline list means the 10s timer is armed. -/
theorem mem_timerDeadlines_main (m : WaitMachine) (d : Nat)
    (h : (d, true) ∈ timerDeadlines m) :
    m.mainTimerOn = true ∧ d = WAIT_TIMEOUT_MS := by
  unfold timerDeadlines at h
  rcases List.mem_append.mp h with h1 | h1
  · cases hmt : m.mainTimerOn
    · rw [hmt] at h1
      simp at h1
    · rw [hmt] at h1
      simp at h1
      exact ⟨rfl, h1⟩
  · exfalso
    rcases List.mem_map.mp h1 with ⟨x, _, hx⟩
    simp at hx

/-- A grace entry in the deadline list is an armed grace timer. -/
theorem mem_timerDeadlines_grace (m : WaitMachine) (d : Nat)
    (h : (d, false) ∈ timerDeadlines m) : d ∈ m.graceTimers := by
  unfold timerDeadlines at h
  rcases List.mem_append.mp h with h1 | h1
  · exfalso
    cases hmt : m.mainTimerOn <;> rw [hmt] at h1 <;> simp at h1
  · rcases List.mem_map.mp h1 with ⟨x, hx1, hx2⟩
    simp at hx2
    exact hx2 ▸ hx1

/-- Firing an armed grace timer strictly decreases the armed count. -/
theorem timerCount_fireGrace (m : WaitMachine) (d : Nat) (hd : d ∈ m.graceTimers) :
    timerCount (fireGraceTimer m d) < timerCount m := by
  have hlen := List.length_erase_of_mem hd
  have hpos : 0 < m.graceTimers.length :=
    List.length_pos.mpr (List.ne_nil_of_mem hd)
  unfold timerCount fireGraceTimer resolveWith
  cases hres : m.resolved <;> cases hmt : m.mainTimerOn <;>
    simp [hres, hmt, hlen] <;> omega

/-- Firing the armed main timer strictly decreases the armed count. -/
theorem timerCount_fireMain (m : WaitMachine) (hmt : m.mainTimerOn = true) :
    timerCount (fireMainTimer m) < timerCount m := by
  unfold timerCount fireMainTimer resolveWith
  cases hres : m.resolved <;> simp [hres, hmt]

/-- Each firing of the next timer strictly decreases the armed count. -/
theorem timerCount_fireStep (m : WaitMachine) (p : Nat × Bool)
    (h : nextTimer m = some p) : timerCount (fireStep m p) < timerCount m := by
  have hmem := nextTimer_mem m p h
  rcases p with ⟨d, b⟩
  cases b
  · have heq : fireStep m (d, false) = fireGraceTimer m d := rfl
    rw [heq]
    exact timerCount_fireGrace m d (mem_timerDeadlines_grace m d hmem)
  · have heq : fireStep m (d, true) = fireMainTimer m := rfl
    rw [heq]
    exact timerCount_fireMain m (mem_timerDeadlines_main m d hmem).1

/-- With fuel at least the armed count, the drain loop empties all
timers. -/
theorem fireAllLoop_drains : ∀ (fuel : Nat) (m : WaitMachine),
    timerCount m ≤ fuel → nextTimer (fireAllLoop fuel m) = none := by
  intro fuel
  induction fuel with
  | zero =>
    intro m h
    have hc : timerCount m = 0 := Nat.le_zero.mp h
    unfold timerCount at hc
    have hmt : m.mainTimerOn = false := by
      cases hmt : m.mainTimerOn
      · rfl
      · rw [hmt] at hc
        simp at hc
    have hg : m.graceTimers = [] := by
      rw [hmt] at hc
      simp at hc
      exact hc
    show nextTimer (fireAllLoop 0 m) = none
    unfold fireAllLoop nextTimer timerDeadlines
    rw [hmt, hg]
    rfl
  | succ fuel ih =>
    intro m h
    unfold fireAllLoop
    cases hnt : nextTimer m with
    | none => exact hnt
    | some p =>
      have hlt := timerCount_fireStep m p hnt
      exact ih (fireStep m p) (by omega)

/-- The wait machine starts in its structural invariant. -/
theorem initWait_inv (fr lr : Option ASRResult) (st : ASRStatus) :
    WaitInv (initWait fr lr st) := by
  cases fr <;> simp [initWait, WaitInv]

/-- One delivered emission preserves the structural invariant. -/
theorem processEvent_inv (m : WaitMachine) (e : TimedEv) (h : WaitInv m) :
    WaitInv (processEvent m e) := by
  obtain ⟨h1, h2, h3⟩ := h
  cases e with
  | result t r =>
    unfold processEvent
    dsimp only
    split
    · exact ⟨rfl, fun _ => rfl, fun hh => Bool.noConfusion hh⟩
    · exact ⟨h1, h2, h3⟩
  | status t st2 =>
    unfold processEvent
    dsimp only
    split
    · exact ⟨h1, h2, h3⟩
    · exact ⟨h1, h2, h3⟩

/-- The 10s timeout callback preserves the structural invariant. -/
theorem fireMainTimer_inv (m : WaitMachine) (h : WaitInv m) :
    WaitInv (fireMainTimer m) := by
  obtain ⟨h1, h2, h3⟩ := h
  unfold fireMainTimer
  dsimp only
  split
  · next hg =>
      exact ⟨h1, h2, fun hh => by rw [hh] at hg; exact Bool.noConfusion hg⟩
  · exact ⟨rfl, fun _ => rfl, fun hh => Bool.noConfusion hh⟩

/-- A grace callback preserves the structural invariant. -/
theorem fireGraceTimer_inv (m : WaitMachine) (d : Nat) (h : WaitInv m) :
    WaitInv (fireGraceTimer m d) := by
  obtain ⟨h1, h2, h3⟩ := h
  unfold fireGraceTimer
  dsimp only
  split
  · next hg =>
      exact ⟨h1, h2, fun hh => by rw [hh] at hg; exact Bool.noConfusion hg⟩
  · exact ⟨rfl, fun _ => rfl, fun hh => Bool.noConfusion hh⟩

/-- Any single timer firing preserves the structural invariant. -/
theorem fireStep_inv (m : WaitMachine) (p : Nat × Bool) (h : WaitInv m) :
    WaitInv (fireStep m p) := by
  rcases p with ⟨d, b⟩
  cases b
  · exact fireGraceTimer_inv m d h
  · exact fireMainTimer_inv m h

/-- The clock-advance loop preserves the structural invariant. -/
theorem fireUpToLoop_inv : ∀ (fuel : Nat) (m : WaitMachine) (t : Nat),
    WaitInv m → WaitInv (fireUpToLoop fuel m t) := by
  intro fuel
  induction fuel with
  | zero => intro m t h; exact h
  | succ fuel ih =>
    intro m t h
    unfold fireUpToLoop
    cases hnt : nextTimer m with
    | none => exact h
    | some p =>
      dsimp only
      by_cases hle : p.1 ≤ t
      · rw [if_pos hle]
        exact ih _ t (fireStep_inv m p h)
      · rw [if_neg hle]
        exact h

/-- The drain loop preserves the structural invariant. -/
theorem fireAllLoop_inv : ∀ (fuel : Nat) (m : WaitMachine),
    WaitInv m → WaitInv (fireAllLoop fuel m) := by
  intro fuel
  induction fuel with
  | zero => intro m h; exact h
  | succ fuel ih =>
    intro m h
    unfold fireAllLoop
    cases hnt : nextTimer m with
    | none => exact h
    | some p => exact ih _ (fireStep_inv m p h)

/-- Processing a whole timeline preserves the invariant, and the final
machine has no armed timer left. -/
theorem runWaitAux_inv : ∀ (evs : List TimedEv) (m : WaitMachine), WaitInv m →
    WaitInv (runWaitAux m evs) ∧ nextTimer (runWaitAux m evs) = none := by
  intro evs
  induction evs with
  | nil =>
    intro m h
    exact ⟨fireAllLoop_inv (timerCount m) m h,
           fireAllLoop_drains (timerCount m) m (Nat.le_refl _)⟩
  | cons e rest ih =>
    intro m h
    exact ih _ (processEvent_inv _ e (fireUpToLoop_inv (timerCount m) m e.time h))

/-- Once the wait is settled, a delivered emission can update the
service-side fields but neither the settlement nor the timers. -/
theorem processEvent_resolvedStable (m : WaitMachine) (e : TimedEv)
    (h : m.resolved = true) :
    (processEvent m e).resolved = true
    ∧ (processEvent m e).resolution = m.resolution
    ∧ (processEvent m e).resolvedAt = m.resolvedAt
    ∧ (processEvent m e).graceTimers = m.graceTimers
    ∧ (processEvent m e).mainTimerOn = m.mainTimerOn := by
  cases e <;> simp [processEvent, h]

/-- Once the wait is settled, timer firings keep the settlement. -/
theorem fireStep_resolvedStable (m : WaitMachine) (p : Nat × Bool)
    (h : m.resolved = true) :
    (fireStep m p).resolved = true
    ∧ (fireStep m p).resolution = m.resolution
    ∧ (fireStep m p).resolvedAt = m.resolvedAt := by
  rcases p with ⟨d, b⟩
  cases b <;> simp [fireStep, fireMainTimer, fireGraceTimer, h]

/-- The clock-advance loop keeps a settlement unchanged. -/
theorem fireUpToLoop_resolvedStable : ∀ (fuel : Nat) (m : WaitMachine) (t : Nat),
    m.resolved = true →
    (fireUpToLoop fuel m t).resolved = true
    ∧ (fireUpToLoop fuel m t).resolution = m.resolution
    ∧ (fireUpToLoop fuel m t).resolvedAt = m.resolvedAt := by
  intro fuel
  induction fuel with
  | zero => intro m t h; exact ⟨h, rfl, rfl⟩
  | succ fuel ih =>
    intro m t h
    unfold fireUpToLoop
    cases hnt : nextTimer m with
    | none => exact ⟨h, rfl, rfl⟩
    | some p =>
      dsimp only
      by_cases hle : p.1 ≤ t
      · rw [if_pos hle]
        have hs := fireStep_resolvedStable m p h
        have hrec := ih (fireStep m p) t hs.1
        exact ⟨hrec.1, hrec.2.1.trans hs.2.1, hrec.2.2.trans hs.2.2⟩
      · rw [if_neg hle]
        exact ⟨h, rfl, rfl⟩

/-- The drain loop keeps a settlement unchanged. -/
theorem fireAllLoop_resolvedStable : ∀ (fuel : Nat) (m : WaitMachine),
    m.resolved = true →
    (fireAllLoop fuel m).resolved = true
    ∧ (fireAllLoop fuel m).resolution = m.resolution
    ∧ (fireAllLoop fuel m).resolvedAt = m.resolvedAt := by
  intro fuel
  induction fuel with
  | zero => intro m h; exact ⟨h, rfl, rfl⟩
  | succ fuel ih =>
    intro m h
    unfold fireAllLoop
    cases hnt : nextTimer m with
    | none => exact ⟨h, rfl, rfl⟩
    | some p =>
      have hs := fireStep_resolvedStable m p h
      have hrec := ih (fireStep m p) hs.1
      exact ⟨hrec.1, hrec.2.1.trans hs.2.1, hrec.2.2.trans hs.2.2⟩

/-- A settled machine with no armed timers processes the rest of the
timeline without its settlement changing. -/
theorem runWaitAux_resolvedStable : ∀ (evs : List TimedEv) (m : WaitMachine),
    m.resolved = true → m.mainTimerOn = false → m.graceTimers = [] →
    (runWaitAux m evs).resolution = m.resolution
    ∧ (runWaitAux m evs).resolvedAt = m.resolvedAt := by
  intro evs
  induction evs with
  | nil =>
    intro m h1 h2 h3
    have hid : runWaitAux m [] = m := by
      show fireAllTimers m = m
      unfold fireAllTimers timerCount
      rw [h2, h3]
      rfl
    rw [hid]
    exact ⟨rfl, rfl⟩
  | cons e rest ih =>
    intro m h1 h2 h3
    have hft : fireTimersUpTo m e.time = m := by
      unfold fireTimersUpTo timerCount
      rw [h2, h3]
      rfl
    rw [show runWaitAux m (e :: rest)
          = runWaitAux (processEvent (fireTimersUpTo m e.time) e) rest from rfl,
        hft]
    have hpe := processEvent_resolvedStable m e h1
    have hrec := ih (processEvent m e) hpe.1 (hpe.2.2.2.2.trans h2)
      (hpe.2.2.2.1.trans h3)
    exact ⟨hrec.1.trans hpe.2.1, hrec.2.trans hpe.2.2.1⟩

/-- The first-match operator absorbs a some in its first slot. -/
theorem firstSome_some_absorb (a : Option ASRResult) (x : ASRResult)
    (b : Option ASRResult) :
    firstSome (firstSome a (some x)) b = firstSome a (some x) := by
  cases a <;> rfl

/-- The first-match operator ignores a none in its second slot. -/
theorem firstSome_none_right (a : Option ASRResult) : firstSome a none = a := by
  cases a <;> rfl

/-- One unfolding of lastResBefore on a cons. -/
theorem lastResBefore_cons (cut : Nat) (e : TimedEv) (rest : List TimedEv) :
    lastResBefore cut (e :: rest)
      = firstSome (lastResBefore cut rest)
          (match e with
           | TimedEv.result t r => if t < cut then some r else none
           | _ => none) := rfl

/-- Sortedness restricts to the tail. -/
theorem timesSorted_tail {e : TimedEv} {l : List TimedEv}
    (h : timesSorted (e :: l) = true) : timesSorted l = true := by
  cases l with
  | nil => rfl
  | cons b rest =>
    unfold timesSorted at h
    simp only [Bool.and_eq_true] at h
    exact h.2

/-- In a sorted timeline the head precedes the next event. -/
theorem timesSorted_head_le {e b : TimedEv} {l : List TimedEv}
    (h : timesSorted (e :: b :: l) = true) : e.time ≤ b.time := by
  unfold timesSorted at h
  simp only [Bool.and_eq_true, decide_eq_true_eq] at h
  exact h.1

/-- noFinalResultEv restricts to the tail. -/
theorem noFinal_tail {e : TimedEv} {l : List TimedEv}
    (h : noFinalResultEv (e :: l) = true) : noFinalResultEv l = true := by
  unfold noFinalResultEv at h ⊢
  rw [List.all_cons] at h
  simp only [Bool.and_eq_true] at h
  exact h.2

/-- A head result event of a final-free timeline is interim. -/
theorem noFinal_head_result {t : Nat} {r : ASRResult} {l : List TimedEv}
    (h : noFinalResultEv (TimedEv.result t r :: l) = true) : r.isFinal = false := by
  unfold noFinalResultEv at h
  rw [List.all_cons] at h
  simp only [Bool.and_eq_true] at h
  simpa using h.1

/-- noDoneStatusEv restricts to the tail. -/
theorem noDone_tail {e : TimedEv} {l : List TimedEv}
    (h : noDoneStatusEv (e :: l) = true) : noDoneStatusEv l = true := by
  unfold noDoneStatusEv at h ⊢
  rw [List.all_cons] at h
  simp only [Bool.and_eq_true] at h
  exact h.2

/-- A head status event of a done-free timeline is not done. -/
theorem noDone_head_status {t : Nat} {st : ASRStatus} {l : List TimedEv}
    (h : noDoneStatusEv (TimedEv.status t st :: l) = true) :
    st ≠ ASRStatus.done := by
  unfold noDoneStatusEv at h
  rw [List.all_cons] at h
  simp only [Bool.and_eq_true] at h
  simpa using h.1

/-- In a sorted timeline starting at or after the ceiling, no result
event lies before the ceiling. -/
theorem lastResBefore_none_of_ge : ∀ (evs : List TimedEv) (e0 : TimedEv),
    timesSorted (e0 :: evs) = true → WAIT_TIMEOUT_MS ≤ e0.time →
    lastResBefore WAIT_TIMEOUT_MS (e0 :: evs) = none := by
  intro evs
  induction evs with
  | nil =>
    intro e0 _ hge
    rw [lastResBefore_cons]
    cases e0 with
    | result t r =>
      simp only [TimedEv.time] at hge
      simp [lastResBefore, firstSome, Nat.not_lt.mpr hge]
    | status t st => rfl
  | cons e1 rest ih =>
    intro e0 hsort hge
    have hle : e0.time ≤ e1.time := timesSorted_head_le hsort
    have hrec := ih e1 (timesSorted_tail hsort) (le_trans hge hle)
    rw [lastResBefore_cons, hrec]
    cases e0 with
    | result t r =>
      simp only [TimedEv.time] at hge
      simp [firstSome, Nat.not_lt.mpr hge]
    | status t st => rfl

/-- Before the ceiling, advancing the clock leaves a pending machine
untouched (only the 10s timer is armed and it is not yet due). -/
theorem fireTimersUpTo_pending_lt (L : Option ASRResult) (st : ASRStatus)
    (t : Nat) (h : t < WAIT_TIMEOUT_MS) :
    fireTimersUpTo (mkPending L st) t = mkPending L st := by
  have h1 : fireTimersUpTo (mkPending L st) t
      = (if WAIT_TIMEOUT_MS ≤ t then
          fireUpToLoop 0 (fireStep (mkPending L st) (WAIT_TIMEOUT_MS, true)) t
         else mkPending L st) := rfl
  rw [h1, if_neg (Nat.not_le.mpr h)]

/-- At or past the ceiling, the 10s timer fires on a pending machine:
it settles with the last result at the ceiling, removing the result
handler but not the status handler. -/
theorem fireTimersUpTo_pending_ge (L : Option ASRResult) (st : ASRStatus)
    (t : Nat) (h : WAIT_TIMEOUT_MS ≤ t) :
    fireTimersUpTo (mkPending L st) t = mkTimedOut L st := by
  have h1 : fireTimersUpTo (mkPending L st) t
      = (if WAIT_TIMEOUT_MS ≤ t then
          fireUpToLoop 0 (fireStep (mkPending L st) (WAIT_TIMEOUT_MS, true)) t
         else mkPending L st) := rfl
  rw [h1, if_pos h]
  rfl

/-- Draining a pending machine fires the 10s ceiling. -/
theorem fireAllTimers_pending (L : Option ASRResult) (st : ASRStatus) :
    fireAllTimers (mkPending L st) = mkTimedOut L st := rfl

/-- A pre-ceiling interim result updates the pending machine's last
result only. -/
theorem processEvent_pending_result (t : Nat) (r : ASRResult)
    (L : Option ASRResult) (st : ASRStatus) (h : r.isFinal = false) :
    processEvent (mkPending L st) (TimedEv.result t r) = mkPending (some r) st := by
  simp [processEvent, mkPending, h]

/-- A non-done status updates the pending machine's service status only. -/
theorem processEvent_pending_status (t : Nat) (st2 : ASRStatus)
    (L : Option ASRResult) (st : ASRStatus) (h : st2 ≠ ASRStatus.done) :
    processEvent (mkPending L st) (TimedEv.status t st2) = mkPending L st2 := by
  simp [processEvent, mkPending, h]

/-- Core of the C3 timeout analysis: on a sorted timeline without final
results and without done statuses, the wait settles exactly at the
ceiling with the last pre-ceiling result, falling back to the result
stored before the wait began. -/
theorem c3_aux : ∀ (evs : List TimedEv) (L : Option ASRResult) (st : ASRStatus),
    timesSorted evs = true → noFinalResultEv evs = true →
    noDoneStatusEv evs = true →
    (runWaitAux (mkPending L st) evs).resolution
        = some (firstSome (lastResBefore WAIT_TIMEOUT_MS evs) L)
    ∧ (runWaitAux (mkPending L st) evs).resolvedAt = some WAIT_TIMEOUT_MS := by
  intro evs
  induction evs with
  | nil =>
    intro L st _ _ _
    rw [show runWaitAux (mkPending L st) [] = fireAllTimers (mkPending L st) from rfl,
        fireAllTimers_pending]
    exact ⟨rfl, rfl⟩
  | cons e rest ih =>
    intro L st hsort hnf hnd
    have hsrest := timesSorted_tail hsort
    rw [show runWaitAux (mkPending L st) (e :: rest)
          = runWaitAux (processEvent (fireTimersUpTo (mkPending L st) e.time) e) rest
        from rfl]
    by_cases h10 : e.time < WAIT_TIMEOUT_MS
    · rw [fireTimersUpTo_pending_lt L st e.time h10]
      cases e with
      | result t r =>
        have hrf : r.isFinal = false := noFinal_head_result hnf
        rw [processEvent_pending_result t r L st hrf]
        have hrec := ih (some r) st hsrest (noFinal_tail hnf) (noDone_tail hnd)
        have ht : t < WAIT_TIMEOUT_MS := h10
        refine ⟨?_, hrec.2⟩
        rw [hrec.1, lastResBefore_cons]
        simp only [ht, if_pos]
        rw [firstSome_some_absorb]
      | status t st2 =>
        have hst2 : st2 ≠ ASRStatus.done := noDone_head_status hnd
        rw [processEvent_pending_status t st2 L st hst2]
        have hrec := ih L st2 hsrest (noFinal_tail hnf) (noDone_tail hnd)
        refine ⟨?_, hrec.2⟩
        rw [hrec.1, lastResBefore_cons]
        rw [show (match TimedEv.status t st2 with
             | TimedEv.result t r => if t < WAIT_TIMEOUT_MS then some r else none
             | _ => none) = (none : Option ASRResult) from rfl,
            firstSome_none_right]
    · have hge : WAIT_TIMEOUT_MS ≤ e.time := Nat.not_lt.mp h10
      rw [fireTimersUpTo_pending_ge L st e.time hge]
      have hpe := processEvent_resolvedStable (mkTimedOut L st) e rfl
      have hstab := runWaitAux_resolvedStable rest (processEvent (mkTimedOut L st) e)
        hpe.1 (hpe.2.2.2.2.trans rfl) (hpe.2.2.2.1.trans rfl)
      rw [lastResBefore_none_of_ge rest e hsort hge]
      constructor
      · rw [hstab.1, hpe.2.1]
        rfl
      · rw [hstab.2, hpe.2.2.1]
        rfl

/-- With no final result stored, waitForFinalResult runs the race on the
canonical pending machine. -/
theorem waitForFinalResult_none (svc : ServiceState) (evs : List TimedEv)
    (h : svc.finalResult = none) :
    ASRService.waitForFinalResult svc evs
      = { machine := runWaitAux (mkPending svc.lastResult svc.status) evs
          value := (runWaitAux (mkPending svc.lastResult svc.status)
            evs).resolution.getD none
          time := (runWaitAux (mkPending svc.lastResult svc.status)
            evs).resolvedAt.getD 0 } := by
  unfold ASRService.waitForFinalResult
  rw [h]
  rfl

/-- Claim C3: the final-result wait in stop() resolves immediately with a
final result that arrived before stop() was called; and when neither a
final result event nor a done status event occurs on the (sorted)
timeline, it resolves at exactly the 10-second ceiling with the stored
final result if any (necessarily absent here), else the last interim
result if any, else null — it never hangs. -/
theorem c3_wait_bounded :
    (∀ (svc : ServiceState) (evs : List TimedEv) (r : ASRResult),
      svc.finalResult = some r →
      (ASRService.waitForFinalResult svc evs).value = some r
      ∧ (ASRService.waitForFinalResult svc evs).time = 0)
    ∧ (∀ (svc : ServiceState) (evs : List TimedEv),
      svc.finalResult = none → timesSorted evs = true →
      noFinalResultEv evs = true → noDoneStatusEv evs = true →
      (ASRService.waitForFinalResult svc evs).time = WAIT_TIMEOUT_MS
      ∧ (ASRService.waitForFinalResult svc evs).value
          = firstSome (lastResBefore WAIT_TIMEOUT_MS evs) svc.lastResult) := by
  constructor
  · intro svc evs r h
    unfold ASRService.waitForFinalResult
    rw [h]
    exact ⟨rfl, rfl⟩
  · intro svc evs h hs hnf hnd
    rw [waitForFinalResult_none svc evs h]
    have haux := c3_aux evs svc.lastResult svc.status hs hnf hnd
    constructor
    · show (runWaitAux (mkPending svc.lastResult svc.status)
        evs).resolvedAt.getD 0 = WAIT_TIMEOUT_MS
      rw [haux.2]
      rfl
    · show (runWaitAux (mkPending svc.lastResult svc.status)
          evs).resolution.getD none
        = firstSome (lastResBefore WAIT_TIMEOUT_MS evs) svc.lastResult
      rw [haux.1]
      rfl

/-- Witness for C3: an interim result at 2s and a non-done status at 2.5s
leave the wait to settle at the 10s ceiling with that interim result. -/
theorem c3_witness :
    (timesSorted
        [TimedEv.result 2000 rInterim, TimedEv.status 2500 ASRStatus.processing] = true
     ∧ noFinalResultEv
        [TimedEv.result 2000 rInterim, TimedEv.status 2500 ASRStatus.processing] = true
     ∧ noDoneStatusEv
        [TimedEv.result 2000 rInterim, TimedEv.status 2500 ASRStatus.processing] = true)
    ∧ (ASRService.waitForFinalResult
        { client := none, status := ASRStatus.processing
          finalResult := none, lastResult := none }
        [TimedEv.result 2000 rInterim, TimedEv.status 2500 ASRStatus.processing]).time
          = WAIT_TIMEOUT_MS
    ∧ (ASRService.waitForFinalResult
        { client := none, status := ASRStatus.processing
          finalResult := none, lastResult := none }
        [TimedEv.result 2000 rInterim, TimedEv.status 2500 ASRStatus.processing]).value
          = firstSome (lastResBefore WAIT_TIMEOUT_MS
              [TimedEv.result 2000 rInterim, TimedEv.status 2500 ASRStatus.processing])
              none :=
  ⟨⟨by decide, by decide, by decide⟩,
   (c3_wait_bounded.2 _ _ rfl (by decide) (by decide) (by decide)).1,
   (c3_wait_bounded.2 _ _ rfl (by decide) (by decide) (by decide)).2⟩

/-- Counterexample to claim C4 as stated: when a final result event
resolves the race, the result handler removes itself and clears the
10s timer, but the status handler registered for the race is still
attached to the client at (and after) resolution — only the grace-
window path removes both handlers. -/
theorem c4_counterexample :
    ((ASRService.waitForFinalResult
        { client := none, status := ASRStatus.processing
          finalResult := none, lastResult := none }
        [TimedEv.result 1000 rFinal]).machine).resolved = true
    ∧ (ASRService.waitForFinalResult
        { client := none, status := ASRStatus.processing
          finalResult := none, lastResult := none }
        [TimedEv.result 1000 rFinal]).value = some rFinal
    ∧ (ASRService.waitForFinalResult
        { client := none, status := ASRStatus.processing
          finalResult := none, lastResult := none }
        [TimedEv.result 1000 rFinal]).time = 1000
    ∧ ((ASRService.waitForFinalResult
        { client := none, status := ASRStatus.processing
          finalResult := none, lastResult := none }
        [TimedEv.result 1000 rFinal]).machine).statusHandlerOn = true :=
  ⟨by decide, by decide, by decide, by decide⟩

/-- Claim C4 as amended: every run of the final-result race settles
exactly once — the machine always ends settled, and once settled no
event delivery or timer firing changes the settlement — and the result
handler is removed on every resolution path; the status handler,
however, is removed only on the done-grace path and otherwise remains
registered until the coordinator's teardown removes all listeners. -/
theorem c4_amended_wait_race :
    (∀ (svc : ServiceState) (evs : List TimedEv),
      ((ASRService.waitForFinalResult svc evs).machine).resolved = true
      ∧ ((ASRService.waitForFinalResult svc evs).machine).resolution.isSome = true
      ∧ ((ASRService.waitForFinalResult svc evs).machine).resultHandlerOn = false)
    ∧ (∀ (m : WaitMachine) (e : TimedEv) (v : Option ASRResult),
        m.resolved = true → m.resolution = some v →
        (processEvent m e).resolved = true ∧ (processEvent m e).resolution = some v)
    ∧ (∀ (m : WaitMachine) (t : Nat) (v : Option ASRResult),
        m.resolved = true → m.resolution = some v →
        ((fireTimersUpTo m t).resolved = true
          ∧ (fireTimersUpTo m t).resolution = some v)
        ∧ ((fireAllTimers m).resolved = true
          ∧ (fireAllTimers m).resolution = some v)) := by
  refine ⟨?_, ?_, ?_⟩
  · intro svc evs
    cases hfr : svc.finalResult with
    | some r =>
      unfold ASRService.waitForFinalResult
      rw [hfr]
      exact ⟨rfl, rfl, rfl⟩
    | none =>
      rw [waitForFinalResult_none svc evs hfr]
      have hinv := runWaitAux_inv evs (mkPending svc.lastResult svc.status)
        ⟨rfl, fun hh => Bool.noConfusion hh, fun _ => rfl⟩
      obtain ⟨⟨i1, i2, i3⟩, hnt⟩ := hinv
      have hfields := nextTimer_none_fields _ hnt
      have hres : (runWaitAux (mkPending svc.lastResult svc.status) evs).resolved
          = true := by
        cases hr : (runWaitAux (mkPending svc.lastResult svc.status) evs).resolved
        · have hmt := i3 hr
          rw [hfields.1] at hmt
          exact Bool.noConfusion hmt
        · rfl
      exact ⟨hres, by rw [← i1]; exact hres, i2 hres⟩
  · intro m e v h1 h2
    have hpe := processEvent_resolvedStable m e h1
    exact ⟨hpe.1, hpe.2.1.trans h2⟩
  · intro m t v h1 h2
    have hup := fireUpToLoop_resolvedStable (timerCount m) m t h1
    have hall := fireAllLoop_resolvedStable (timerCount m) m h1
    exact ⟨⟨hup.1, hup.2.1.trans h2⟩, ⟨hall.1, hall.2.1.trans h2⟩⟩

/-- Witness for C4 as amended: delivering a late done status to a machine
already settled at the ceiling changes nothing about the settlement. -/
theorem c4_witness :
    (mkTimedOut (some rFinal) ASRStatus.done).resolved = true
    ∧ (mkTimedOut (some rFinal) ASRStatus.done).resolution = some (some rFinal)
    ∧ (processEvent (mkTimedOut (some rFinal) ASRStatus.done)
        (TimedEv.status 10500 ASRStatus.done)).resolution = some (some rFinal) :=
  ⟨rfl, rfl,
   (c4_amended_wait_race.2.1 (mkTimedOut (some rFinal) ASRStatus.done)
     (TimedEv.status 10500 ASRStatus.done) (some rFinal) rfl rfl).2⟩

end OpenTypeless
